import Mathlib

/-!
Verification development for the VMCI QueuePair lifecycle engine
(open-vm-tools, modules/linux/vmci/vmciQueuePair.c).

The source file is shallowly embedded: the global registry state
(the intrusive list `queuePairList`, its `hibernate` flag, the
separately locked `hibernateFailedList`, and the static RID counter
of `QueuePairEntryCreate`) becomes an explicit state record, and
every fallible external collaborator (device shutdown test, queue
buffer allocation, kernel memory allocation, PPN set allocation,
hypercall transport, local event dispatch, queue conversion) is
threaded through an environment record holding the result the
collaborator would return.  Machine integers are modelled as `Nat`
with explicit 32-bit masking where the source masks (`~` on uint32),
and error codes as `Int` with the values of the VMCI API headers
(negative codes are failures, `VMCI_SUCCESS = 0`, exactly as the
source compares with `< VMCI_SUCCESS` / `>= VMCI_SUCCESS`).
-/

/-! ## Constants from the VMCI API headers -/

def VMCI_SUCCESS : Int := 0

def VMCI_ERROR_INVALID_ARGS : Int := -2

def VMCI_ERROR_NO_MEM : Int := -3

def VMCI_ERROR_NO_ACCESS : Int := -7

def VMCI_ERROR_UNAVAILABLE : Int := -20

def VMCI_ERROR_NOT_FOUND : Int := -21

def VMCI_ERROR_ALREADY_EXISTS : Int := -22

def VMCI_ERROR_QUEUEPAIR_MISMATCH : Int := -31

def VMCI_ERROR_DEVICE_NOT_FOUND : Int := -39

def VMCI_QPFLAG_ATTACH_ONLY : Nat := 1

def VMCI_QPFLAG_LOCAL : Nat := 2

def VMCI_QP_ALL_FLAGS : Nat := VMCI_QPFLAG_ATTACH_ONLY ||| VMCI_QPFLAG_LOCAL

def VMCI_NO_PRIVILEGE_FLAGS : Nat := 0

def VMCI_INVALID_ID : Nat := 4294967295

def VMCI_RESERVED_RESOURCE_ID_MAX : Nat := 1023

def PAGE_SIZE : Nat := 4096

/-- All bits of a uint32; `x &&& (UINT32_MASK ^^^ m)` is the C expression
`x & ~m` on uint32 operands. -/
def UINT32_MASK : Nat := 4294967295

/-- The C macro `CEILING(a, b) = (a + b - 1) / b`. -/
def CEILING (a b : Nat) : Nat := (a + b - 1) / b

/-! ## Data model -/

/-- A VMCI handle: (context id, resource id), both uint32. -/
structure VMCIHandle where
  context : Nat
  resource : Nat
deriving DecidableEq, Repr

def VMCI_MAKE_HANDLE (c r : Nat) : VMCIHandle := ⟨c, r⟩

def VMCI_INVALID_HANDLE : VMCIHandle := ⟨VMCI_INVALID_ID, VMCI_INVALID_ID⟩

/-- The C macro `VMCI_HANDLE_INVALID(h)`: equality with the sentinel handle. -/
abbrev VMCI_HANDLE_INVALID (h : VMCIHandle) : Prop := h = VMCI_INVALID_HANDLE

/-- One live queue pair (struct QueuePairEntry).  Queue buffers and the PPN
set are opaque collaborator objects; they are modelled by numeric tags so
that identity (and the local-attach role swap) is observable.  The C source
never initializes `hibernateFailure` in `QueuePairEntryCreate`
(`VMCI_AllocKernelMem` does not zero); the initial value is therefore an
input of the allocation environment. -/
structure QueuePairEntry where
  handle : VMCIHandle
  peer : Nat
  flags : Nat
  produceSize : Nat
  consumeSize : Nat
  numPPNs : Nat
  ppnSet : Nat
  produceQ : Nat
  consumeQ : Nat
  refCount : Nat
  hibernateFailure : Bool
deriving DecidableEq, Repr

/-- The global state: `queuePairList` (its intrusive list `head` and atomic
`hibernate` flag), the separately locked `hibernateFailedList` handle array,
and the static RID counter `queuePairRID` of `QueuePairEntryCreate`. -/
structure QueuePairListState where
  head : List QueuePairEntry
  hibernate : Bool
  hibernateFailedList : List VMCIHandle
  queuePairRID : Nat
deriving DecidableEq, Repr

/-- A local event delivered through `VMCIEvent_Dispatch`
(`QueuePairNotifyPeerLocal` payload: peer attach or peer detach). -/
inductive QPEvent where
  | peerAttach : VMCIHandle → QPEvent
  | peerDetach : VMCIHandle → QPEvent
deriving DecidableEq, Repr

/-- The event `QueuePairNotifyPeerLocal(attach, handle)` dispatches into the
local event queue. -/
def QueuePairNotifyPeerLocal (attach : Bool) (handle : VMCIHandle) : QPEvent :=
  if attach then QPEvent.peerAttach handle else QPEvent.peerDetach handle

/-! ## Registry list operations (QueuePairList_...) -/

/-- `QueuePairList_FindEntry`: first entry with this exact handle; the
invalid handle never resolves. -/
def QueuePairList_FindEntry (head : List QueuePairEntry) (handle : VMCIHandle) :
    Option QueuePairEntry :=
  if VMCI_HANDLE_INVALID handle then none
  else head.find? (fun e => decide (e.handle = handle))

/-- `QueuePairList_AddEntry` (LIST_QUEUE appends at the tail). -/
def QueuePairList_AddEntry (head : List QueuePairEntry) (entry : QueuePairEntry) :
    List QueuePairEntry :=
  head ++ [entry]

/-- `QueuePairList_RemoveEntry` through the pointer returned by
`QueuePairList_FindEntry`: unlink the first entry carrying the handle. -/
def QueuePairList_RemoveEntry (head : List QueuePairEntry) (handle : VMCIHandle) :
    List QueuePairEntry :=
  match head with
  | [] => []
  | e :: rest =>
    if e.handle = handle then rest else e :: QueuePairList_RemoveEntry rest handle

/-- In-place mutation of the entry found by `QueuePairList_FindEntry` (the C
code mutates through the pointer): apply `f` to the first entry carrying the
handle. -/
def QueuePairList_UpdateEntry (head : List QueuePairEntry) (handle : VMCIHandle)
    (f : QueuePairEntry → QueuePairEntry) : List QueuePairEntry :=
  match head with
  | [] => []
  | e :: rest =>
    if e.handle = handle then f e :: rest
    else e :: QueuePairList_UpdateEntry rest handle f

/-! ## Failed-handle set primitives

Modelled from the spec: the separately locked failed-handle set
(`VMCIHandleArray` from vmci_handle_array, which is not under src/) —
append a handle, remove one occurrence of a handle, remove the tail
element, and the size query used to drain the set. -/

def VMCIHandleArray_AppendEntry (l : List VMCIHandle) (h : VMCIHandle) :
    List VMCIHandle :=
  l ++ [h]

def VMCIHandleArray_RemoveEntry (l : List VMCIHandle) (h : VMCIHandle) :
    List VMCIHandle :=
  l.erase h

/-! ## QueuePairEntryCreate and the RID allocator -/

/-- Result of the RID generation loop in `QueuePairEntryCreate`: the value
of the static counter after the loop, the `entry` lookup result of the last
candidate, and the last candidate handle. -/
structure RidSearchResult where
  rid : Nat
  found : Option QueuePairEntry
  handle : VMCIHandle
deriving DecidableEq, Repr

/-- The do-while loop of `QueuePairEntryCreate`: try
`VMCI_MAKE_HANDLE(contextID, queuePairRID)`, advance the counter (wrapping
past the reserved ids on uint32 overflow), and continue while the candidate
is taken and the counter has not cycled back to `oldRID`.  The loop body
runs at most once per rid in the non-reserved range, so any fuel at least
`2 ^ 32` makes the fuel guard unreachable. -/
def nextQueuePairRID (rid : Nat) : Nat :=
  if rid = UINT32_MASK then VMCI_RESERVED_RESOURCE_ID_MAX + 1 else rid + 1

def QueuePairRIDLoop (head : List QueuePairEntry) (contextID oldRID : Nat) :
    Nat → Nat → RidSearchResult
  | 0, rid =>
    ⟨nextQueuePairRID rid,
     QueuePairList_FindEntry head (VMCI_MAKE_HANDLE contextID rid),
     VMCI_MAKE_HANDLE contextID rid⟩
  | fuel + 1, rid =>
    if (QueuePairList_FindEntry head (VMCI_MAKE_HANDLE contextID rid)).isSome
         = true ∧
       nextQueuePairRID rid ≠ oldRID then
      QueuePairRIDLoop head contextID oldRID fuel (nextQueuePairRID rid)
    else
      ⟨nextQueuePairRID rid,
       QueuePairList_FindEntry head (VMCI_MAKE_HANDLE contextID rid),
       VMCI_MAKE_HANDLE contextID rid⟩

/-- `QueuePairEntryCreate`: allocate a rid (and handle) iff the given handle
is invalid, then allocate and initialize the entry.  Returns the new value
of the static `queuePairRID` counter together with the entry (`none` on rid
exhaustion or kernel memory failure).  `hibernateInit` models the value the
uninitialized `hibernateFailure` field happens to hold. -/
def QueuePairEntryCreate (head : List QueuePairEntry) (queuePairRID contextID : Nat)
    (memOk hibernateInit : Bool) (handle : VMCIHandle)
    (peer flags produceSize consumeSize : Nat) (produceQ consumeQ : Nat) :
    Nat × Option QueuePairEntry :=
  let numPPNs := CEILING produceSize PAGE_SIZE + CEILING consumeSize PAGE_SIZE + 2
  let mk : VMCIHandle → QueuePairEntry := fun h =>
    { handle := h, peer := peer, flags := flags, produceSize := produceSize,
      consumeSize := consumeSize, numPPNs := numPPNs, ppnSet := 0,
      produceQ := produceQ, consumeQ := consumeQ, refCount := 0,
      hibernateFailure := hibernateInit }
  if VMCI_HANDLE_INVALID handle then
    let r := QueuePairRIDLoop head contextID queuePairRID (2 ^ 32) queuePairRID
    if r.found.isSome then (r.rid, none)
    else if memOk then (r.rid, some (mk r.handle)) else (r.rid, none)
  else
    if memOk then (queuePairRID, some (mk handle)) else (queuePairRID, none)

/-! ## Allocation protocol -/

/-- Results the external collaborators return during one
`VMCIQueuePairAllocHelper` call. -/
structure AllocEnv where
  deviceShutdown : Bool
  contextID : Nat
  notifyResult : Int
  produceQAlloc : Option Nat
  consumeQAlloc : Option Nat
  entryMemOk : Bool
  entryHibernateInit : Bool
  ppnSetResult : Int
  hcAllocMsgOk : Bool
  hcPopulateResult : Int
  hcSendResult : Int
deriving DecidableEq, Repr

structure AllocResult where
  result : Int
  state : QueuePairListState
  handleOut : VMCIHandle
  produceQOut : Option Nat
  consumeQOut : Option Nat
  events : List QPEvent
deriving DecidableEq, Repr

/-- `VMCIQueuePairAlloc_HyperCall`: reject when `numPPNs <= 2`, fail with
no-memory when the message buffer cannot be allocated, then return the PPN
population result, or the datagram send result when population succeeded. -/
def VMCIQueuePairAlloc_HyperCall (env : AllocEnv) (entry : QueuePairEntry) : Int :=
  if entry.numPPNs ≤ 2 then VMCI_ERROR_INVALID_ARGS
  else if env.hcAllocMsgOk = false then VMCI_ERROR_NO_MEM
  else if env.hcPopulateResult = VMCI_SUCCESS then env.hcSendResult
  else env.hcPopulateResult

/-- `VMCIQueuePairAllocHelper`: the whole allocate/attach decision tree,
run under the registry lock.  Mirrors the source control flow: shutdown
gate, hibernate gate, existing-entry branch (local attach or
already-exists), then the fresh-create path (queue buffers, entry, PPN set,
local validation or allocate hypercall, insertion, refcount increment). -/
def VMCIQueuePairAllocHelper (s : QueuePairListState) (env : AllocEnv)
    (handleIn : VMCIHandle) (produceSize consumeSize peer flags : Nat) :
    AllocResult :=
  if env.deviceShutdown = true then
    ⟨VMCI_ERROR_DEVICE_NOT_FOUND, s, handleIn, none, none, []⟩
  else if s.hibernate = true ∧ flags &&& VMCI_QPFLAG_LOCAL = 0 then
    ⟨VMCI_ERROR_UNAVAILABLE, s, handleIn, none, none, []⟩
  else
    match QueuePairList_FindEntry s.head handleIn with
    | some queuePairEntry =>
      if queuePairEntry.flags &&& VMCI_QPFLAG_LOCAL ≠ 0 then
        if queuePairEntry.refCount > 1 then
          ⟨VMCI_ERROR_UNAVAILABLE, s, handleIn, none, none, []⟩
        else if queuePairEntry.produceSize ≠ consumeSize ∨
                queuePairEntry.consumeSize ≠ produceSize ∨
                queuePairEntry.flags ≠
                  flags &&& (UINT32_MASK ^^^ VMCI_QPFLAG_ATTACH_ONLY) then
          ⟨VMCI_ERROR_QUEUEPAIR_MISMATCH, s, handleIn, none, none, []⟩
        else if env.notifyResult < VMCI_SUCCESS then
          ⟨env.notifyResult, s, handleIn, none, none,
           [QueuePairNotifyPeerLocal true handleIn]⟩
        else
          ⟨VMCI_SUCCESS,
           { s with head := QueuePairList_UpdateEntry s.head handleIn
                      (fun e => { e with refCount := e.refCount + 1 }) },
           queuePairEntry.handle, some queuePairEntry.consumeQ,
           some queuePairEntry.produceQ,
           [QueuePairNotifyPeerLocal true handleIn]⟩
      else
        ⟨VMCI_ERROR_ALREADY_EXISTS, s, handleIn, none, none, []⟩
    | none =>
      match env.produceQAlloc with
      | none => ⟨VMCI_ERROR_NO_MEM, s, handleIn, none, none, []⟩
      | some myProduceQ =>
        match env.consumeQAlloc with
        | none => ⟨VMCI_ERROR_NO_MEM, s, handleIn, none, none, []⟩
        | some myConsumeQ =>
          let created := QueuePairEntryCreate s.head s.queuePairRID env.contextID
                           env.entryMemOk env.entryHibernateInit handleIn
                           peer flags produceSize consumeSize myProduceQ myConsumeQ
          let s1 := { s with queuePairRID := created.1 }
          match created.2 with
          | none => ⟨VMCI_ERROR_NO_MEM, s1, handleIn, none, none, []⟩
          | some queuePairEntry =>
            if env.ppnSetResult < VMCI_SUCCESS then
              ⟨env.ppnSetResult, s1, handleIn, none, none, []⟩
            else
              let finish : AllocResult :=
                let entry1 := { queuePairEntry with
                                refCount := queuePairEntry.refCount + 1 }
                ⟨VMCI_SUCCESS,
                 { s1 with head := QueuePairList_AddEntry s1.head entry1 },
                 entry1.handle, some myProduceQ, some myConsumeQ, []⟩
              if queuePairEntry.flags &&& VMCI_QPFLAG_LOCAL ≠ 0 then
                if queuePairEntry.handle.context ≠ env.contextID ∨
                   (queuePairEntry.peer ≠ VMCI_INVALID_ID ∧
                    queuePairEntry.peer ≠ env.contextID) then
                  ⟨VMCI_ERROR_NO_ACCESS, s1, handleIn, none, none, []⟩
                else if queuePairEntry.flags &&& VMCI_QPFLAG_ATTACH_ONLY ≠ 0 then
                  ⟨VMCI_ERROR_NOT_FOUND, s1, handleIn, none, none, []⟩
                else finish
              else
                let hcResult := VMCIQueuePairAlloc_HyperCall env queuePairEntry
                if hcResult < VMCI_SUCCESS then
                  ⟨hcResult, s1, handleIn, none, none, []⟩
                else finish

/-- `VMCIQueuePair_AllocPriv`: privilege gate (guests may not request
privileges), argument validation, then the helper.  The three `...Ptr`
booleans model the non-nullness of the out-pointer arguments. -/
def VMCIQueuePair_AllocPriv (s : QueuePairListState) (env : AllocEnv)
    (handlePtr : Bool) (handleIn : VMCIHandle) (produceQPtr : Bool)
    (produceSize : Nat) (consumeQPtr : Bool) (consumeSize : Nat)
    (peer flags privFlags : Nat) : AllocResult :=
  if privFlags ≠ VMCI_NO_PRIVILEGE_FLAGS then
    ⟨VMCI_ERROR_NO_ACCESS, s, handleIn, none, none, []⟩
  else if handlePtr = false ∨ produceQPtr = false ∨ consumeQPtr = false ∨
          (produceSize = 0 ∧ consumeSize = 0) ∨
          flags &&& (UINT32_MASK ^^^ VMCI_QP_ALL_FLAGS) ≠ 0 then
    ⟨VMCI_ERROR_INVALID_ARGS, s, handleIn, none, none, []⟩
  else
    VMCIQueuePairAllocHelper s env handleIn produceSize consumeSize peer flags

/-- `VMCIQueuePair_Alloc`: the public entry point always passes
`VMCI_NO_PRIVILEGE_FLAGS` to `VMCIQueuePair_AllocPriv`. -/
def VMCIQueuePair_Alloc (s : QueuePairListState) (env : AllocEnv)
    (handlePtr : Bool) (handleIn : VMCIHandle) (produceQPtr : Bool)
    (produceSize : Nat) (consumeQPtr : Bool) (consumeSize : Nat)
    (peer flags : Nat) : AllocResult :=
  VMCIQueuePair_AllocPriv s env handlePtr handleIn produceQPtr produceSize
    consumeQPtr consumeSize peer flags VMCI_NO_PRIVILEGE_FLAGS

/-! ## Detach protocol -/

structure DetachEnv where
  notifyResult : Int
  hyperCallResult : Int
deriving DecidableEq, Repr

/-- Result of a detach call: the error code, the new state, the entry
`QueuePairEntryDestroy` was called on (if any; destruction releases the PPN
set and both queue buffers of exactly that entry, after the registry lock
is dropped), and the dispatched local events. -/
structure DetachResult where
  result : Int
  state : QueuePairListState
  destroyed : Option QueuePairEntry
  events : List QPEvent
deriving DecidableEq, Repr

/-- `VMCIQPUnmarkHibernateFailed`: clear the mark on the entry and remove
its handle from the failed-handle set. -/
def VMCIQPUnmarkHibernateFailed (entry : QueuePairEntry)
    (failedList : List VMCIHandle) : QueuePairEntry × List VMCIHandle :=
  ({ entry with hibernateFailure := false },
   VMCIHandleArray_RemoveEntry failedList entry.handle)

/-- The `out:` tail of `VMCIQueuePairDetachHelper`: on a non-negative
result decrement the refcount and, when it reaches zero, unlink the entry
and destroy it after the lock is released; on a negative result leave the
registry untouched.  `entry1` and `failedList1` are the entry and
failed-handle set as possibly already modified by
`VMCIQPUnmarkHibernateFailed`. -/
def VMCIQueuePairDetachOut (s : QueuePairListState) (handle : VMCIHandle)
    (entry1 : QueuePairEntry) (failedList1 : List VMCIHandle) (result : Int)
    (events : List QPEvent) : DetachResult :=
  if VMCI_SUCCESS ≤ result then
    let entry2 := { entry1 with refCount := entry1.refCount - 1 }
    if entry2.refCount = 0 then
      ⟨result,
       { s with head := QueuePairList_RemoveEntry s.head handle,
                hibernateFailedList := failedList1 },
       some entry2, events⟩
    else
      ⟨result,
       { s with head := QueuePairList_UpdateEntry s.head handle (fun _ => entry2),
                hibernateFailedList := failedList1 },
       none, events⟩
  else
    ⟨result, { s with hibernateFailedList := failedList1 }, none, events⟩

/-- `VMCIQueuePairDetachHelper`: look the handle up; local entries with both
sides attached first notify the peer (a failed notification aborts the
detach); non-local entries issue the detach hypercall, where a not-found
reply for an entry marked `hibernateFailure` is reinterpreted as success
and any success clears the mark. -/
def VMCIQueuePairDetachHelper (s : QueuePairListState) (env : DetachEnv)
    (handle : VMCIHandle) : DetachResult :=
  match QueuePairList_FindEntry s.head handle with
  | none => ⟨VMCI_ERROR_NOT_FOUND, s, none, []⟩
  | some entry =>
    if entry.flags &&& VMCI_QPFLAG_LOCAL ≠ 0 then
      if entry.refCount > 1 then
        VMCIQueuePairDetachOut s handle entry s.hibernateFailedList
          env.notifyResult [QueuePairNotifyPeerLocal false handle]
      else
        VMCIQueuePairDetachOut s handle entry s.hibernateFailedList
          VMCI_SUCCESS []
    else
      let result0 := env.hyperCallResult
      if entry.hibernateFailure = true then
        let result1 := if result0 = VMCI_ERROR_NOT_FOUND then VMCI_SUCCESS
                       else result0
        if result1 = VMCI_SUCCESS then
          let unmarked := VMCIQPUnmarkHibernateFailed entry s.hibernateFailedList
          VMCIQueuePairDetachOut s handle unmarked.1 unmarked.2 result1 []
        else
          VMCIQueuePairDetachOut s handle entry s.hibernateFailedList result1 []
      else
        VMCIQueuePairDetachOut s handle entry s.hibernateFailedList result0 []

/-- `VMCIQueuePair_Detach`: reject the invalid handle, else run the helper. -/
def VMCIQueuePair_Detach (s : QueuePairListState) (env : DetachEnv)
    (handle : VMCIHandle) : DetachResult :=
  if VMCI_HANDLE_INVALID handle then ⟨VMCI_ERROR_INVALID_ARGS, s, none, []⟩
  else VMCIQueuePairDetachHelper s env handle

/-! ## Hibernation conversion engine -/

/-- Per-entry collaborator results for one conversion attempt:
`VMCI_ConvertToLocalQueue` on the consume and produce queues (`some q`
replaces the backing buffer by the fresh local buffer `q`, saving the old
one; `none` is failure), and the detach hypercall result. -/
structure ConvertEntryEnv where
  consLocalQ : Option Nat
  prodLocalQ : Option Nat
  detachResult : Int
deriving DecidableEq, Repr

structure ConvertResult where
  state : QueuePairListState
  events : List QPEvent
deriving DecidableEq, Repr

/-- `VMCIQPMarkHibernateFailed`: set the mark on the entry; the returned
singleton is the handle appended to the failed-handle set. -/
def VMCIQPMarkHibernateFailed (entry : QueuePairEntry) :
    QueuePairEntry × List VMCIHandle :=
  ({ entry with hibernateFailure := true }, [entry.handle])

/-- The body of the `LIST_SCAN` in `VMCIQueuePair_Convert(toLocal = TRUE)`
for one entry: skip local entries; otherwise snapshot the consume queue,
then the produce queue (reverting the consume queue on failure), then
detach by hypercall (reverting both on failure); failures mark the entry
hibernate-failed and move on, success flips the LOCAL flag, keeps the local
snapshots as the backing buffers, and notifies the local peer of a detach. -/
def VMCIQueuePairConvertEntry (ce : ConvertEntryEnv) (entry : QueuePairEntry) :
    QueuePairEntry × List VMCIHandle × List QPEvent :=
  if entry.flags &&& VMCI_QPFLAG_LOCAL ≠ 0 then (entry, [], [])
  else
    let oldConsQ := entry.consumeQ
    let oldProdQ := entry.produceQ
    match ce.consLocalQ with
    | none =>
      let marked := VMCIQPMarkHibernateFailed entry
      (marked.1, marked.2, [])
    | some newConsQ =>
      let entryC := { entry with consumeQ := newConsQ }
      match ce.prodLocalQ with
      | none =>
        let entryRC := { entryC with consumeQ := oldConsQ }
        let marked := VMCIQPMarkHibernateFailed entryRC
        (marked.1, marked.2, [])
      | some newProdQ =>
        let entryP := { entryC with produceQ := newProdQ }
        if ce.detachResult < VMCI_SUCCESS then
          let entryRC := { entryP with consumeQ := oldConsQ }
          let entryRP := { entryRC with produceQ := oldProdQ }
          let marked := VMCIQPMarkHibernateFailed entryRP
          (marked.1, marked.2, [])
        else
          ({ entryP with flags := entryP.flags ||| VMCI_QPFLAG_LOCAL }, [],
           [QueuePairNotifyPeerLocal false entry.handle])

/-- The `LIST_SCAN` sweep over the registry list; `i` indexes the per-entry
collaborator results positionally. -/
def VMCIQueuePairConvertSweep (env : Nat → ConvertEntryEnv) (i : Nat) :
    List QueuePairEntry → List QueuePairEntry × List VMCIHandle × List QPEvent
  | [] => ([], [], [])
  | entry :: rest =>
    let r := VMCIQueuePairConvertEntry (env i) entry
    let rs := VMCIQueuePairConvertSweep env (i + 1) rest
    (r.1 :: rs.1, r.2.1 ++ rs.2.1, r.2.2 ++ rs.2.2)

/-- `VMCIQueuePair_Convert`.  Entering hibernation (`toLocal = TRUE`): sweep
every entry under the registry lock, then set the hibernate flag.  Leaving
(`toLocal = FALSE`): drain the failed-handle set from its tail under its own
lock, delivering a local detach notification per drained handle when the
device was reset, then clear the hibernate flag. -/
def VMCIQueuePair_Convert (s : QueuePairListState) (toLocal deviceReset : Bool)
    (env : Nat → ConvertEntryEnv) : ConvertResult :=
  if toLocal then
    let r := VMCIQueuePairConvertSweep env 0 s.head
    ⟨{ s with head := r.1,
              hibernateFailedList := s.hibernateFailedList ++ r.2.1,
              hibernate := true }, r.2.2⟩
  else
    ⟨{ s with hibernateFailedList := [], hibernate := false },
     if deviceReset then
       s.hibernateFailedList.reverse.map (QueuePairNotifyPeerLocal false)
     else []⟩

/-! ## Module init and teardown -/

/-- The state set up by `VMCIQueuePair_Init` (the static `queuePairRID`
starts just above the reserved resource ids). -/
def VMCIQueuePair_InitState : QueuePairListState :=
  ⟨[], false, [], VMCI_RESERVED_RESOURCE_ID_MAX + 1⟩

/-- `VMCIQueuePair_Exit`: drain and destroy every entry regardless of its
refcount (hypercalls are issued for non-local entries but their results are
ignored), reset the hibernate flag, and destroy the failed-handle array. -/
def VMCIQueuePair_Exit (s : QueuePairListState) : QueuePairListState :=
  { s with head := [], hibernate := false, hibernateFailedList := [] }

/-! ## Reachable states -/

/-- One mutation of the global state by a public operation of the module. -/
inductive QPStep : QueuePairListState → QueuePairListState → Prop where
  | alloc (s : QueuePairListState) (env : AllocEnv) (handlePtr : Bool)
      (handleIn : VMCIHandle) (produceQPtr : Bool) (produceSize : Nat)
      (consumeQPtr : Bool) (consumeSize : Nat) (peer flags privFlags : Nat) :
      QPStep s (VMCIQueuePair_AllocPriv s env handlePtr handleIn produceQPtr
                  produceSize consumeQPtr consumeSize peer flags privFlags).state
  | detach (s : QueuePairListState) (env : DetachEnv) (handle : VMCIHandle) :
      QPStep s (VMCIQueuePair_Detach s env handle).state
  | convert (s : QueuePairListState) (toLocal deviceReset : Bool)
      (env : Nat → ConvertEntryEnv) :
      QPStep s (VMCIQueuePair_Convert s toLocal deviceReset env).state
  | exited (s : QueuePairListState) : QPStep s (VMCIQueuePair_Exit s)

/-- States the module can be in after any sequence of operations. -/
inductive QPReachable : QueuePairListState → Prop where
  | init : QPReachable VMCIQueuePair_InitState
  | step {s s' : QueuePairListState} : QPReachable s → QPStep s s' → QPReachable s'

/-! ## Helper lemmas about the registry list operations -/

lemma find?_handle_decomp {l : List QueuePairEntry} {h : VMCIHandle}
    {e : QueuePairEntry}
    (hf : l.find? (fun x => decide (x.handle = h)) = some e) :
    e.handle = h ∧ ∃ l1 l2, l = l1 ++ e :: l2 ∧ ∀ x ∈ l1, x.handle ≠ h := by
  induction l with
  | nil => simp at hf
  | cons a rest ih =>
    by_cases ha : a.handle = h
    · rw [List.find?_cons_of_pos _ (by simpa using ha)] at hf
      obtain rfl : a = e := by simpa using hf
      exact ⟨ha, [], rest, rfl, by simp⟩
    · rw [List.find?_cons_of_neg _ (by simpa using ha)] at hf
      obtain ⟨he, l1, l2, hl, hl1⟩ := ih hf
      exact ⟨he, a :: l1, l2, by simp [hl], by simpa [ha] using hl1⟩

lemma QueuePairList_FindEntry_decomp {head : List QueuePairEntry}
    {h : VMCIHandle} {e : QueuePairEntry}
    (hf : QueuePairList_FindEntry head h = some e) :
    ¬ VMCI_HANDLE_INVALID h ∧ e.handle = h ∧
      ∃ l1 l2, head = l1 ++ e :: l2 ∧ ∀ x ∈ l1, x.handle ≠ h := by
  unfold QueuePairList_FindEntry at hf
  split at hf
  · simp at hf
  · exact ⟨by assumption, find?_handle_decomp hf⟩

lemma QueuePairList_FindEntry_mem {head : List QueuePairEntry}
    {h : VMCIHandle} {e : QueuePairEntry}
    (hf : QueuePairList_FindEntry head h = some e) : e ∈ head := by
  obtain ⟨-, -, l1, l2, rfl, -⟩ := QueuePairList_FindEntry_decomp hf
  simp

lemma QueuePairList_FindEntry_none {head : List QueuePairEntry}
    {h : VMCIHandle} (hf : QueuePairList_FindEntry head h = none)
    (hinv : ¬ VMCI_HANDLE_INVALID h) : ∀ x ∈ head, x.handle ≠ h := by
  unfold QueuePairList_FindEntry at hf
  rw [if_neg hinv] at hf
  intro x hx
  have := List.find?_eq_none.mp hf x hx
  simpa using this

lemma QueuePairList_UpdateEntry_decomp {l1 l2 : List QueuePairEntry}
    {e : QueuePairEntry} {h : VMCIHandle} (f : QueuePairEntry → QueuePairEntry)
    (hl1 : ∀ x ∈ l1, x.handle ≠ h) (he : e.handle = h) :
    QueuePairList_UpdateEntry (l1 ++ e :: l2) h f = l1 ++ f e :: l2 := by
  induction l1 with
  | nil => simp [QueuePairList_UpdateEntry, he]
  | cons a rest ih =>
    have ha : a.handle ≠ h := hl1 a (by simp)
    simp only [List.cons_append, QueuePairList_UpdateEntry, if_neg ha,
      List.append_eq]
    rw [ih (fun x hx => hl1 x (by simp [hx]))]

lemma QueuePairList_RemoveEntry_decomp {l1 l2 : List QueuePairEntry}
    {e : QueuePairEntry} {h : VMCIHandle}
    (hl1 : ∀ x ∈ l1, x.handle ≠ h) (he : e.handle = h) :
    QueuePairList_RemoveEntry (l1 ++ e :: l2) h = l1 ++ l2 := by
  induction l1 with
  | nil => simp [QueuePairList_RemoveEntry, he]
  | cons a rest ih =>
    have ha : a.handle ≠ h := hl1 a (by simp)
    simp only [List.cons_append, QueuePairList_RemoveEntry, if_neg ha,
      List.append_eq]
    rw [ih (fun x hx => hl1 x (by simp [hx]))]

lemma QueuePairList_UpdateEntry_length (l : List QueuePairEntry)
    (h : VMCIHandle) (f : QueuePairEntry → QueuePairEntry) :
    (QueuePairList_UpdateEntry l h f).length = l.length := by
  induction l with
  | nil => rfl
  | cons a rest ih =>
    simp only [QueuePairList_UpdateEntry]
    split
    · simp
    · simp [ih]

lemma mem_QueuePairList_UpdateEntry_of_find {head : List QueuePairEntry}
    {h : VMCIHandle} {e x : QueuePairEntry} {f : QueuePairEntry → QueuePairEntry}
    (hf : QueuePairList_FindEntry head h = some e)
    (hx : x ∈ QueuePairList_UpdateEntry head h f) : x = f e ∨ x ∈ head := by
  obtain ⟨-, he, l1, l2, rfl, hl1⟩ := QueuePairList_FindEntry_decomp hf
  rw [QueuePairList_UpdateEntry_decomp f hl1 he] at hx
  rcases List.mem_append.mp hx with hx1 | hx2
  · exact Or.inr (List.mem_append.mpr (Or.inl hx1))
  · rcases List.mem_cons.mp hx2 with rfl | hx2
    · exact Or.inl rfl
    · exact Or.inr (by simp [hx2])

lemma mem_QueuePairList_RemoveEntry {head : List QueuePairEntry}
    {h : VMCIHandle} {x : QueuePairEntry}
    (hx : x ∈ QueuePairList_RemoveEntry head h) : x ∈ head := by
  induction head with
  | nil => simp [QueuePairList_RemoveEntry] at hx
  | cons a rest ih =>
    simp only [QueuePairList_RemoveEntry] at hx
    split at hx
    · simp [hx]
    · rcases List.mem_cons.mp hx with rfl | hx
      · simp
      · simp [ih hx]

/-! ## Helper lemmas about the conversion sweep -/

lemma VMCIQueuePairConvertEntry_refCount (ce : ConvertEntryEnv)
    (e : QueuePairEntry) :
    (VMCIQueuePairConvertEntry ce e).1.refCount = e.refCount := by
  rcases ce with ⟨cq, pq, dr⟩
  rcases cq with - | q1 <;> rcases pq with - | q2 <;>
    simp only [VMCIQueuePairConvertEntry, VMCIQPMarkHibernateFailed] <;>
    split <;> try rfl
  all_goals split <;> rfl

lemma VMCIQueuePairConvertEntry_fail {ce : ConvertEntryEnv}
    {e : QueuePairEntry} (hnl : e.flags &&& VMCI_QPFLAG_LOCAL = 0)
    (hfail : ce.consLocalQ = none ∨ ce.prodLocalQ = none ∨
             ce.detachResult < VMCI_SUCCESS) :
    VMCIQueuePairConvertEntry ce e =
      ({ e with hibernateFailure := true }, [e.handle], []) := by
  rcases ce with ⟨cq, pq, dr⟩
  simp only [VMCIQueuePairConvertEntry, VMCIQPMarkHibernateFailed, hnl]
  rcases cq with - | q1
  · simp
  · rcases pq with - | q2
    · simp
    · rcases hfail with h1 | h2 | h3
      · simp at h1
      · simp at h2
      · simp only at h3
        simp [if_pos h3]

lemma VMCIQueuePairConvertSweep_length (env : Nat → ConvertEntryEnv) (i : Nat)
    (l : List QueuePairEntry) :
    (VMCIQueuePairConvertSweep env i l).1.length = l.length := by
  induction l generalizing i with
  | nil => rfl
  | cons a rest ih => simp [VMCIQueuePairConvertSweep, ih]

lemma VMCIQueuePairConvertSweep_get? (env : Nat → ConvertEntryEnv) (i j : Nat)
    (l : List QueuePairEntry) :
    (VMCIQueuePairConvertSweep env i l).1.get? j =
      (l.get? j).map (fun e => (VMCIQueuePairConvertEntry (env (i + j)) e).1) := by
  induction l generalizing i j with
  | nil => simp [VMCIQueuePairConvertSweep]
  | cons a rest ih =>
    rcases j with - | j
    · simp [VMCIQueuePairConvertSweep]
    · have := ih (i + 1) j
      simp only [VMCIQueuePairConvertSweep, List.get?_cons_succ, this]
      have harith : i + 1 + j = i + (j + 1) := by omega
      rw [harith]

lemma VMCIQueuePairConvertSweep_failed_mem (env : Nat → ConvertEntryEnv)
    (i j : Nat) (l : List QueuePairEntry) {e : QueuePairEntry}
    (hget : l.get? j = some e) {x : VMCIHandle}
    (hx : x ∈ (VMCIQueuePairConvertEntry (env (i + j)) e).2.1) :
    x ∈ (VMCIQueuePairConvertSweep env i l).2.1 := by
  induction l generalizing i j with
  | nil => simp at hget
  | cons a rest ih =>
    rcases j with - | j
    · obtain rfl : a = e := by simpa using hget
      simp only [VMCIQueuePairConvertSweep, List.mem_append]
      exact Or.inl (by simpa using hx)
    · simp only [List.get?_cons_succ] at hget
      have harith : i + (j + 1) = i + 1 + j := by omega
      rw [harith] at hx
      simp only [VMCIQueuePairConvertSweep, List.mem_append]
      exact Or.inr (ih (i + 1) j hget hx)

lemma mem_VMCIQueuePairConvertSweep (env : Nat → ConvertEntryEnv) (i : Nat)
    (l : List QueuePairEntry) {x : QueuePairEntry}
    (hx : x ∈ (VMCIQueuePairConvertSweep env i l).1) :
    ∃ e ∈ l, ∃ ce, x = (VMCIQueuePairConvertEntry ce e).1 := by
  induction l generalizing i with
  | nil => simp [VMCIQueuePairConvertSweep] at hx
  | cons a rest ih =>
    simp only [VMCIQueuePairConvertSweep, List.mem_cons] at hx
    rcases hx with rfl | hx
    · exact ⟨a, by simp, env i, rfl⟩
    · obtain ⟨e, he, ce, hce⟩ := ih (i + 1) hx
      exact ⟨e, by simp [he], ce, hce⟩

/-! ## Helper lemmas about the RID allocator and entry creation -/

lemma nextQueuePairRID_range {rid : Nat}
    (h1 : VMCI_RESERVED_RESOURCE_ID_MAX + 1 ≤ rid) (h2 : rid ≤ UINT32_MASK) :
    VMCI_RESERVED_RESOURCE_ID_MAX + 1 ≤ nextQueuePairRID rid ∧
      nextQueuePairRID rid ≤ UINT32_MASK := by
  unfold nextQueuePairRID VMCI_RESERVED_RESOURCE_ID_MAX UINT32_MASK at *
  split_ifs with h <;> omega

lemma QueuePairRIDLoop_spec (head : List QueuePairEntry) (cid oldRID : Nat) :
    ∀ fuel rid, VMCI_RESERVED_RESOURCE_ID_MAX + 1 ≤ rid → rid ≤ UINT32_MASK →
      (VMCI_RESERVED_RESOURCE_ID_MAX + 1 ≤
          (QueuePairRIDLoop head cid oldRID fuel rid).rid ∧
        (QueuePairRIDLoop head cid oldRID fuel rid).rid ≤ UINT32_MASK) ∧
      ((QueuePairRIDLoop head cid oldRID fuel rid).found = none →
        (QueuePairRIDLoop head cid oldRID fuel rid).handle.context = cid ∧
        VMCI_RESERVED_RESOURCE_ID_MAX <
          (QueuePairRIDLoop head cid oldRID fuel rid).handle.resource ∧
        (QueuePairRIDLoop head cid oldRID fuel rid).handle.resource ≤ UINT32_MASK ∧
        QueuePairList_FindEntry head
          (QueuePairRIDLoop head cid oldRID fuel rid).handle = none) := by
  intro fuel
  induction fuel with
  | zero =>
    intro rid h1 h2
    refine ⟨nextQueuePairRID_range h1 h2, ?_⟩
    intro hnone
    exact ⟨rfl, h1, h2, hnone⟩
  | succ fuel ih =>
    intro rid h1 h2
    rw [QueuePairRIDLoop]
    split
    case isTrue h =>
      have hr := nextQueuePairRID_range h1 h2
      exact ih (nextQueuePairRID rid) hr.1 hr.2
    case isFalse h =>
      refine ⟨nextQueuePairRID_range h1 h2, ?_⟩
      intro hnone
      exact ⟨rfl, h1, h2, hnone⟩

lemma QueuePairEntryCreate_refCount {head : List QueuePairEntry}
    {rid cid : Nat} {memOk hib : Bool} {hd : VMCIHandle}
    {peer flags psz csz pq cq : Nat} {e : QueuePairEntry}
    (hc : (QueuePairEntryCreate head rid cid memOk hib hd
            peer flags psz csz pq cq).2 = some e) : e.refCount = 0 := by
  simp only [QueuePairEntryCreate, apply_ite Prod.snd] at hc
  split_ifs at hc <;>
    first
      | exact Option.noConfusion hc
      | (injection hc with hc2
         rw [← hc2])

lemma QueuePairEntryCreate_fst_range {head : List QueuePairEntry}
    {rid : Nat} (cid : Nat) (memOk hib : Bool) (hd : VMCIHandle)
    (peer flags psz csz pq cq : Nat)
    (h1 : VMCI_RESERVED_RESOURCE_ID_MAX + 1 ≤ rid) (h2 : rid ≤ UINT32_MASK) :
    VMCI_RESERVED_RESOURCE_ID_MAX + 1 ≤
        (QueuePairEntryCreate head rid cid memOk hib hd
          peer flags psz csz pq cq).1 ∧
      (QueuePairEntryCreate head rid cid memOk hib hd
        peer flags psz csz pq cq).1 ≤ UINT32_MASK := by
  have hl := (QueuePairRIDLoop_spec head cid rid (2 ^ 32) rid h1 h2).1
  simp only [QueuePairEntryCreate, apply_ite Prod.fst]
  split_ifs <;> first | exact hl | exact ⟨h1, h2⟩

lemma QueuePairEntryCreate_auto_spec {head : List QueuePairEntry}
    {rid cid : Nat} {memOk hib : Bool} {peer flags psz csz pq cq : Nat}
    {e : QueuePairEntry}
    (h1 : VMCI_RESERVED_RESOURCE_ID_MAX + 1 ≤ rid) (h2 : rid ≤ UINT32_MASK)
    (hc : (QueuePairEntryCreate head rid cid memOk hib VMCI_INVALID_HANDLE
            peer flags psz csz pq cq).2 = some e) :
    e.handle.context = cid ∧
      VMCI_RESERVED_RESOURCE_ID_MAX < e.handle.resource ∧
      e.handle.resource ≤ UINT32_MASK ∧
      QueuePairList_FindEntry head e.handle = none := by
  have hl := (QueuePairRIDLoop_spec head cid rid (2 ^ 32) rid h1 h2).2
  simp only [QueuePairEntryCreate, apply_ite Prod.snd, if_true] at hc
  split_ifs at hc <;>
    first
      | exact Option.noConfusion hc
      | (injection hc with hc2
         have hnone : (QueuePairRIDLoop head cid rid (2 ^ 32) rid).found = none :=
           Option.not_isSome_iff_eq_none.mp (by assumption)
         obtain ⟨hcx, hr1, hr2, hfind⟩ := hl hnone
         rw [← hc2]
         exact ⟨hcx, hr1, hr2, hfind⟩)

lemma QueuePairEntryCreate_exhausted {head : List QueuePairEntry}
    {rid cid : Nat} (memOk hib : Bool) (peer flags psz csz pq cq : Nat)
    (hocc : (QueuePairRIDLoop head cid rid (2 ^ 32) rid).found.isSome = true) :
    (QueuePairEntryCreate head rid cid memOk hib VMCI_INVALID_HANDLE
      peer flags psz csz pq cq).2 = none := by
  simp only [QueuePairEntryCreate, apply_ite Prod.snd, if_true]
  rw [if_pos hocc]

/-! ## Helper lemmas about the detach path -/

lemma VMCIQueuePairDetachOut_result (s : QueuePairListState) (handle : VMCIHandle)
    (entry1 : QueuePairEntry) (failedList1 : List VMCIHandle) (result : Int)
    (events : List QPEvent) :
    (VMCIQueuePairDetachOut s handle entry1 failedList1 result events).result
      = result := by
  simp only [VMCIQueuePairDetachOut]
  split_ifs <;> rfl

lemma VMCIQueuePairDetachOut_events (s : QueuePairListState) (handle : VMCIHandle)
    (entry1 : QueuePairEntry) (failedList1 : List VMCIHandle) (result : Int)
    (events : List QPEvent) :
    (VMCIQueuePairDetachOut s handle entry1 failedList1 result events).events
      = events := by
  simp only [VMCIQueuePairDetachOut]
  split_ifs <;> rfl

lemma VMCIQueuePairDetachOut_head_cases (s : QueuePairListState)
    (handle : VMCIHandle) (entry1 : QueuePairEntry)
    (failedList1 : List VMCIHandle) (result : Int) (events : List QPEvent) :
    (result < VMCI_SUCCESS ∧
       (VMCIQueuePairDetachOut s handle entry1 failedList1 result events).state
         = { s with hibernateFailedList := failedList1 } ∧
       (VMCIQueuePairDetachOut s handle entry1 failedList1 result events).destroyed
         = none) ∨
    (VMCI_SUCCESS ≤ result ∧ entry1.refCount - 1 = 0 ∧
       (VMCIQueuePairDetachOut s handle entry1 failedList1 result events).state
         = { s with head := QueuePairList_RemoveEntry s.head handle,
                    hibernateFailedList := failedList1 } ∧
       (VMCIQueuePairDetachOut s handle entry1 failedList1 result events).destroyed
         = some { entry1 with refCount := entry1.refCount - 1 }) ∨
    (VMCI_SUCCESS ≤ result ∧ entry1.refCount - 1 ≠ 0 ∧
       (VMCIQueuePairDetachOut s handle entry1 failedList1 result events).state
         = { s with head := QueuePairList_UpdateEntry s.head handle
                      (fun _ => { entry1 with refCount := entry1.refCount - 1 }),
                    hibernateFailedList := failedList1 } ∧
       (VMCIQueuePairDetachOut s handle entry1 failedList1 result events).destroyed
         = none) := by
  simp only [VMCIQueuePairDetachOut]
  split_ifs with h1 h2
  · exact Or.inr (Or.inl ⟨h1, h2, rfl, rfl⟩)
  · exact Or.inr (Or.inr ⟨h1, h2, rfl, rfl⟩)
  · exact Or.inl ⟨by omega, rfl, rfl⟩

lemma VMCIQueuePairDetachOut_head_cases_entry (s : QueuePairListState)
    (handle : VMCIHandle) (entry : QueuePairEntry) (b : Bool)
    (failedList1 : List VMCIHandle) (result : Int) (events : List QPEvent) :
    (VMCIQueuePairDetachOut s handle { entry with hibernateFailure := b }
        failedList1 result events).state.head = s.head ∨
    (VMCIQueuePairDetachOut s handle { entry with hibernateFailure := b }
        failedList1 result events).state.head
      = QueuePairList_RemoveEntry s.head handle ∨
    (entry.refCount - 1 ≠ 0 ∧
      (VMCIQueuePairDetachOut s handle { entry with hibernateFailure := b }
          failedList1 result events).state.head
        = QueuePairList_UpdateEntry s.head handle
            (fun _ => { entry with refCount := entry.refCount - 1,
                                   hibernateFailure := b })) := by
  rcases VMCIQueuePairDetachOut_head_cases s handle
      { entry with hibernateFailure := b } failedList1 result events with
    ⟨-, hst, -⟩ | ⟨-, -, hst, -⟩ | ⟨-, hne, hst, -⟩
  · exact Or.inl (by rw [hst])
  · exact Or.inr (Or.inl (by rw [hst]))
  · exact Or.inr (Or.inr ⟨hne, by rw [hst]⟩)

lemma VMCIQueuePairDetachHelper_head_cases (s : QueuePairListState)
    (env : DetachEnv) (handle : VMCIHandle) :
    (VMCIQueuePairDetachHelper s env handle).state.head = s.head ∨
    (VMCIQueuePairDetachHelper s env handle).state.head
      = QueuePairList_RemoveEntry s.head handle ∨
    ∃ e b, QueuePairList_FindEntry s.head handle = some e ∧
      e.refCount - 1 ≠ 0 ∧
      (VMCIQueuePairDetachHelper s env handle).state.head
        = QueuePairList_UpdateEntry s.head handle
            (fun _ => { e with refCount := e.refCount - 1,
                               hibernateFailure := b }) := by
  rcases hfe : QueuePairList_FindEntry s.head handle with - | entry
  · simp only [VMCIQueuePairDetachHelper, hfe]
    exact Or.inl trivial
  · simp only [VMCIQueuePairDetachHelper, VMCIQPUnmarkHibernateFailed, hfe]
    have key : ∀ (b : Bool) failedList1 result events,
        (VMCIQueuePairDetachOut s handle { entry with hibernateFailure := b }
            failedList1 result events).state.head = s.head ∨
        (VMCIQueuePairDetachOut s handle { entry with hibernateFailure := b }
            failedList1 result events).state.head
          = QueuePairList_RemoveEntry s.head handle ∨
        ∃ e b2, some entry = some e ∧
          e.refCount - 1 ≠ 0 ∧
          (VMCIQueuePairDetachOut s handle { entry with hibernateFailure := b }
              failedList1 result events).state.head
            = QueuePairList_UpdateEntry s.head handle
                (fun _ => { e with refCount := e.refCount - 1,
                                   hibernateFailure := b2 }) := by
      intro b failedList1 result events
      rcases VMCIQueuePairDetachOut_head_cases_entry s handle entry b
          failedList1 result events with hst | hst | ⟨hne, hst⟩
      · exact Or.inl hst
      · exact Or.inr (Or.inl hst)
      · exact Or.inr (Or.inr ⟨entry, b, rfl, hne, hst⟩)
    split_ifs <;>
      first
        | exact key entry.hibernateFailure _ _ _
        | exact key false _ _ _

/-! ## Helper lemmas about the allocation path -/

lemma QueuePairEntryCreate_fst_indep (head : List QueuePairEntry)
    (rid cid : Nat) (memOk hib : Bool) (hd : VMCIHandle)
    (peer flags psz csz pq cq pq2 cq2 : Nat) :
    (QueuePairEntryCreate head rid cid memOk hib hd
        peer flags psz csz pq cq).1 =
      (QueuePairEntryCreate head rid cid memOk hib hd
        peer flags psz csz pq2 cq2).1 := by
  simp only [QueuePairEntryCreate, apply_ite Prod.fst]

lemma VMCIQueuePairAllocHelper_state_cases (s : QueuePairListState)
    (env : AllocEnv) (handleIn : VMCIHandle) (psz csz peer flags : Nat) :
    ((VMCIQueuePairAllocHelper s env handleIn psz csz peer flags).state.head
        = s.head ∨
      (∃ e, QueuePairList_FindEntry s.head handleIn = some e ∧ e.refCount ≤ 1 ∧
        (VMCIQueuePairAllocHelper s env handleIn psz csz peer flags).state.head
          = QueuePairList_UpdateEntry s.head handleIn
              (fun x => { x with refCount := x.refCount + 1 })) ∨
      (∃ entry1, entry1.refCount = 1 ∧
        (VMCIQueuePairAllocHelper s env handleIn psz csz peer flags).state.head
          = s.head ++ [entry1])) ∧
    ((VMCIQueuePairAllocHelper s env handleIn psz csz peer flags).state.queuePairRID
        = s.queuePairRID ∨
      (VMCIQueuePairAllocHelper s env handleIn
          psz csz peer flags).state.queuePairRID
        = (QueuePairEntryCreate s.head s.queuePairRID env.contextID
            env.entryMemOk env.entryHibernateInit handleIn
            peer flags psz csz 0 0).1) := by
  rcases hfe : QueuePairList_FindEntry s.head handleIn with - | e
  · rcases hpa : env.produceQAlloc with - | pq
    · simp only [VMCIQueuePairAllocHelper, hfe, hpa]
      split_ifs <;> exact ⟨Or.inl rfl, Or.inl rfl⟩
    · rcases hca : env.consumeQAlloc with - | cq
      · simp only [VMCIQueuePairAllocHelper, hfe, hpa, hca]
        split_ifs <;> exact ⟨Or.inl rfl, Or.inl rfl⟩
      · rcases hcr : (QueuePairEntryCreate s.head s.queuePairRID env.contextID
            env.entryMemOk env.entryHibernateInit handleIn
            peer flags psz csz pq cq).2 with - | entry
        · simp only [VMCIQueuePairAllocHelper, hfe, hpa, hca, hcr]
          split_ifs <;>
            first
              | exact ⟨Or.inl rfl, Or.inl rfl⟩
              | exact ⟨Or.inl rfl,
                  Or.inr (QueuePairEntryCreate_fst_indep s.head s.queuePairRID
                    env.contextID env.entryMemOk env.entryHibernateInit handleIn
                    peer flags psz csz pq cq 0 0)⟩
        · have hrc : entry.refCount = 0 := QueuePairEntryCreate_refCount hcr
          simp only [VMCIQueuePairAllocHelper, QueuePairList_AddEntry, hfe,
            hpa, hca, hcr]
          split_ifs <;>
            first
              | exact ⟨Or.inl rfl, Or.inl rfl⟩
              | exact ⟨Or.inl rfl,
                  Or.inr (QueuePairEntryCreate_fst_indep s.head s.queuePairRID
                    env.contextID env.entryMemOk env.entryHibernateInit handleIn
                    peer flags psz csz pq cq 0 0)⟩
              | exact ⟨Or.inr (Or.inr
                    ⟨{ entry with refCount := entry.refCount + 1 },
                     by simp [hrc], rfl⟩),
                  Or.inr (QueuePairEntryCreate_fst_indep s.head s.queuePairRID
                    env.contextID env.entryMemOk env.entryHibernateInit handleIn
                    peer flags psz csz pq cq 0 0)⟩
  · simp only [VMCIQueuePairAllocHelper, hfe]
    split_ifs <;>
      first
        | exact ⟨Or.inl rfl, Or.inl rfl⟩
        | exact ⟨Or.inr (Or.inl ⟨e, rfl, by omega, rfl⟩), Or.inl rfl⟩

/-! ## State-shape lemmas for the public entry points -/

lemma VMCIQueuePair_AllocPriv_state_cases (s : QueuePairListState)
    (env : AllocEnv) (handlePtr : Bool) (handleIn : VMCIHandle)
    (produceQPtr : Bool) (produceSize : Nat) (consumeQPtr : Bool)
    (consumeSize : Nat) (peer flags privFlags : Nat) :
    (VMCIQueuePair_AllocPriv s env handlePtr handleIn produceQPtr produceSize
        consumeQPtr consumeSize peer flags privFlags).state = s ∨
    (VMCIQueuePair_AllocPriv s env handlePtr handleIn produceQPtr produceSize
        consumeQPtr consumeSize peer flags privFlags).state
      = (VMCIQueuePairAllocHelper s env handleIn produceSize consumeSize
          peer flags).state := by
  unfold VMCIQueuePair_AllocPriv
  split_ifs <;> first | exact Or.inl rfl | exact Or.inr rfl

lemma VMCIQueuePair_Detach_state_cases (s : QueuePairListState)
    (env : DetachEnv) (handle : VMCIHandle) :
    (VMCIQueuePair_Detach s env handle).state = s ∨
    (VMCIQueuePair_Detach s env handle).state
      = (VMCIQueuePairDetachHelper s env handle).state := by
  unfold VMCIQueuePair_Detach
  split_ifs <;> first | exact Or.inl rfl | exact Or.inr rfl

lemma VMCIQueuePairDetachOut_rid (s : QueuePairListState) (handle : VMCIHandle)
    (entry1 : QueuePairEntry) (failedList1 : List VMCIHandle) (result : Int)
    (events : List QPEvent) :
    (VMCIQueuePairDetachOut s handle entry1 failedList1
        result events).state.queuePairRID = s.queuePairRID := by
  simp only [VMCIQueuePairDetachOut]
  split_ifs <;> rfl

lemma VMCIQueuePairDetachHelper_rid (s : QueuePairListState) (env : DetachEnv)
    (handle : VMCIHandle) :
    (VMCIQueuePairDetachHelper s env handle).state.queuePairRID
      = s.queuePairRID := by
  rcases hfe : QueuePairList_FindEntry s.head handle with - | entry
  · simp only [VMCIQueuePairDetachHelper, hfe]
  · simp only [VMCIQueuePairDetachHelper, VMCIQPUnmarkHibernateFailed, hfe]
    split_ifs <;> exact VMCIQueuePairDetachOut_rid _ _ _ _ _ _

lemma VMCIQueuePair_Convert_toLocal_state (s : QueuePairListState)
    (deviceReset : Bool) (env : Nat → ConvertEntryEnv) :
    (VMCIQueuePair_Convert s true deviceReset env).state
      = { s with head := (VMCIQueuePairConvertSweep env 0 s.head).1,
                 hibernateFailedList := s.hibernateFailedList
                   ++ (VMCIQueuePairConvertSweep env 0 s.head).2.1,
                 hibernate := true } := rfl

lemma VMCIQueuePair_Convert_wake_state (s : QueuePairListState)
    (deviceReset : Bool) (env : Nat → ConvertEntryEnv) :
    (VMCIQueuePair_Convert s false deviceReset env).state
      = { s with hibernateFailedList := [], hibernate := false } := rfl

/-! ## The reachable-state invariant -/

/-- The core invariant: every registered entry has refcount 1 or 2, and the
static RID counter stays in the non-reserved uint32 range. -/
def QPStateInv (s : QueuePairListState) : Prop :=
  (∀ e ∈ s.head, 1 ≤ e.refCount ∧ e.refCount ≤ 2) ∧
  VMCI_RESERVED_RESOURCE_ID_MAX + 1 ≤ s.queuePairRID ∧
  s.queuePairRID ≤ UINT32_MASK

lemma qpStateInv_init : QPStateInv VMCIQueuePair_InitState := by
  refine ⟨by simp [VMCIQueuePair_InitState], by decide, by decide⟩

lemma qpStateInv_step {s s' : QueuePairListState} (hinv : QPStateInv s)
    (hstep : QPStep s s') : QPStateInv s' := by
  cases hstep with
  | alloc env handlePtr handleIn produceQPtr produceSize consumeQPtr
      consumeSize peer flags privFlags =>
    rcases VMCIQueuePair_AllocPriv_state_cases s env handlePtr handleIn
        produceQPtr produceSize consumeQPtr consumeSize peer flags privFlags
      with hst | hst
    · rw [hst]; exact hinv
    · rw [hst]
      obtain ⟨hcHead, hcRid⟩ := VMCIQueuePairAllocHelper_state_cases s env
        handleIn produceSize consumeSize peer flags
      constructor
      · rcases hcHead with h | ⟨e, hfe, hle, h⟩ | ⟨entry1, h1, h⟩
        · rw [h]; exact hinv.1
        · rw [h]
          intro x hx
          rcases mem_QueuePairList_UpdateEntry_of_find hfe hx with rfl | hx
          · have he := hinv.1 e (QueuePairList_FindEntry_mem hfe)
            constructor <;> simp <;> omega
          · exact hinv.1 x hx
        · rw [h]
          intro x hx
          rcases List.mem_append.mp hx with hx | hx
          · exact hinv.1 x hx
          · have hx1 : x = entry1 := by simpa using hx
            rw [hx1, h1]
            exact ⟨le_refl 1, by omega⟩
      · rcases hcRid with h | h
        · rw [h]; exact hinv.2
        · rw [h]
          exact QueuePairEntryCreate_fst_range env.contextID env.entryMemOk
            env.entryHibernateInit handleIn peer flags produceSize consumeSize
            0 0 hinv.2.1 hinv.2.2
  | detach env handle =>
    rcases VMCIQueuePair_Detach_state_cases s env handle with hst | hst
    · rw [hst]; exact hinv
    · rw [hst]
      constructor
      · rcases VMCIQueuePairDetachHelper_head_cases s env handle with
          h | h | ⟨e, b, hfe, hne, h⟩
        · rw [h]; exact hinv.1
        · rw [h]
          intro x hx
          exact hinv.1 x (mem_QueuePairList_RemoveEntry hx)
        · rw [h]
          intro x hx
          rcases mem_QueuePairList_UpdateEntry_of_find hfe hx with rfl | hx
          · have he := hinv.1 e (QueuePairList_FindEntry_mem hfe)
            constructor <;> simp <;> omega
          · exact hinv.1 x hx
      · rw [VMCIQueuePairDetachHelper_rid]; exact hinv.2
  | convert toLocal deviceReset env =>
    cases toLocal with
    | false =>
      rw [VMCIQueuePair_Convert_wake_state]
      exact ⟨hinv.1, hinv.2⟩
    | true =>
      rw [VMCIQueuePair_Convert_toLocal_state]
      refine ⟨?_, hinv.2⟩
      intro x hx
      obtain ⟨e, he, ce, rfl⟩ := mem_VMCIQueuePairConvertSweep env 0 s.head hx
      rw [VMCIQueuePairConvertEntry_refCount]
      exact hinv.1 e he
  | exited =>
    exact ⟨by simp [VMCIQueuePair_Exit], hinv.2⟩

lemma qpReachable_inv {s : QueuePairListState} (h : QPReachable s) :
    QPStateInv s := by
  induction h with
  | init => exact qpStateInv_init
  | step hr hstep ih => exact qpStateInv_step ih hstep

/-! ## Concrete states used by witnesses and counterexamples -/

/-- Allocation environment where every collaborator succeeds (context id 7,
fresh queue buffer tags 91 and 92). -/
def cAllocEnvOK : AllocEnv := ⟨false, 7, 0, some 91, some 92, true, false, 0, true, 0, 0⟩

/-- Allocation environment where no collaborator is ever consulted
successfully; only used on paths that return before using it. -/
def cAllocEnvIdle : AllocEnv := ⟨false, 7, 0, none, none, false, false, 0, false, 0, 0⟩

/-- A local queue pair (produceSize 100, consumeSize 200) created at handle
(7, 2000) on the fresh state. -/
def cLocalS1 : QueuePairListState :=
  (VMCIQueuePair_AllocPriv VMCIQueuePair_InitState cAllocEnvOK true
    (VMCI_MAKE_HANDLE 7 2000) true 100 true 200 VMCI_INVALID_ID
    VMCI_QPFLAG_LOCAL VMCI_NO_PRIVILEGE_FLAGS).state

/-- The same local queue pair after the second endpoint attached with
swapped sizes: its refCount is 2. -/
def cLocalS2 : QueuePairListState :=
  (VMCIQueuePair_AllocPriv cLocalS1 cAllocEnvOK true
    (VMCI_MAKE_HANDLE 7 2000) true 200 true 100 VMCI_INVALID_ID
    VMCI_QPFLAG_LOCAL VMCI_NO_PRIVILEGE_FLAGS).state

/-- The entry registered in `cLocalS1`. -/
def cLocalEntry1 : QueuePairEntry :=
  ⟨VMCI_MAKE_HANDLE 7 2000, VMCI_INVALID_ID, VMCI_QPFLAG_LOCAL,
   100, 200, 4, 0, 91, 92, 1, false⟩

/-! ## C10 -/

/-- C10: every call to `VMCIQueuePair_AllocPriv` with privilege flags other
than `VMCI_NO_PRIVILEGE_FLAGS` returns no-access before any argument
validation, allocation, or registry mutation (the whole result is the
untouched input state with no outputs and no events), regardless of all
other arguments; and the public `VMCIQueuePair_Alloc` is exactly
`VMCIQueuePair_AllocPriv` at `VMCI_NO_PRIVILEGE_FLAGS`. -/
theorem allocPriv_privilege_gate (s : QueuePairListState) (env : AllocEnv)
    (handlePtr : Bool) (handleIn : VMCIHandle) (produceQPtr : Bool)
    (produceSize : Nat) (consumeQPtr : Bool) (consumeSize : Nat)
    (peer flags privFlags : Nat)
    (hpriv : privFlags ≠ VMCI_NO_PRIVILEGE_FLAGS) :
    VMCIQueuePair_AllocPriv s env handlePtr handleIn produceQPtr produceSize
        consumeQPtr consumeSize peer flags privFlags
      = ⟨VMCI_ERROR_NO_ACCESS, s, handleIn, none, none, []⟩ ∧
    VMCIQueuePair_Alloc s env handlePtr handleIn produceQPtr produceSize
        consumeQPtr consumeSize peer flags
      = VMCIQueuePair_AllocPriv s env handlePtr handleIn produceQPtr
          produceSize consumeQPtr consumeSize peer flags
          VMCI_NO_PRIVILEGE_FLAGS := by
  refine ⟨?_, rfl⟩
  unfold VMCIQueuePair_AllocPriv
  rw [if_pos hpriv]

/-- Witness for C10 at a concrete input with privilege flags 1. -/
theorem allocPriv_privilege_gate_witness :
    VMCIQueuePair_AllocPriv VMCIQueuePair_InitState cAllocEnvIdle true
        (VMCI_MAKE_HANDLE 7 2000) true 100 true 200 VMCI_INVALID_ID 0 1
      = ⟨VMCI_ERROR_NO_ACCESS, VMCIQueuePair_InitState,
         VMCI_MAKE_HANDLE 7 2000, none, none, []⟩ ∧
    VMCIQueuePair_Alloc VMCIQueuePair_InitState cAllocEnvIdle true
        (VMCI_MAKE_HANDLE 7 2000) true 100 true 200 VMCI_INVALID_ID 0
      = VMCIQueuePair_AllocPriv VMCIQueuePair_InitState cAllocEnvIdle true
          (VMCI_MAKE_HANDLE 7 2000) true 100 true 200 VMCI_INVALID_ID 0
          VMCI_NO_PRIVILEGE_FLAGS :=
  allocPriv_privilege_gate VMCIQueuePair_InitState cAllocEnvIdle true
    (VMCI_MAKE_HANDLE 7 2000) true 100 true 200 VMCI_INVALID_ID 0 1
    (by decide)

/-! ## C9 -/

/-- C9 counterexample: `VMCIQueuePair_Detach` on the invalid/sentinel handle
returns invalid-arguments, not not-found as the claim states. -/
theorem detach_invalid_handle_counterexample :
    (VMCIQueuePair_Detach VMCIQueuePair_InitState ⟨0, 0⟩
        VMCI_INVALID_HANDLE).result = VMCI_ERROR_INVALID_ARGS ∧
    VMCI_ERROR_INVALID_ARGS ≠ VMCI_ERROR_NOT_FOUND := by decide

/-- C9 (amended): a detach whose valid handle does not resolve to a live
entry returns not-found and leaves the whole state unchanged; the
invalid/sentinel handle is rejected even earlier, with invalid-arguments
and equally no state change. -/
theorem detach_unresolved_handle (s : QueuePairListState) (env : DetachEnv)
    (handle : VMCIHandle) :
    (VMCI_HANDLE_INVALID handle →
      VMCIQueuePair_Detach s env handle
        = ⟨VMCI_ERROR_INVALID_ARGS, s, none, []⟩) ∧
    (¬ VMCI_HANDLE_INVALID handle →
      QueuePairList_FindEntry s.head handle = none →
      VMCIQueuePair_Detach s env handle
        = ⟨VMCI_ERROR_NOT_FOUND, s, none, []⟩) := by
  constructor
  · intro hinv
    unfold VMCIQueuePair_Detach
    rw [if_pos hinv]
  · intro hinv hfind
    unfold VMCIQueuePair_Detach VMCIQueuePairDetachHelper
    rw [if_neg hinv, hfind]

/-- Witness for C9 at the invalid handle and at an unregistered valid
handle on the fresh state. -/
theorem detach_unresolved_handle_witness :
    VMCIQueuePair_Detach VMCIQueuePair_InitState ⟨0, 0⟩ VMCI_INVALID_HANDLE
      = ⟨VMCI_ERROR_INVALID_ARGS, VMCIQueuePair_InitState, none, []⟩ ∧
    VMCIQueuePair_Detach VMCIQueuePair_InitState ⟨0, 0⟩ (VMCI_MAKE_HANDLE 5 9)
      = ⟨VMCI_ERROR_NOT_FOUND, VMCIQueuePair_InitState, none, []⟩ :=
  ⟨(detach_unresolved_handle VMCIQueuePair_InitState ⟨0, 0⟩
      VMCI_INVALID_HANDLE).1 (by decide),
   (detach_unresolved_handle VMCIQueuePair_InitState ⟨0, 0⟩
      (VMCI_MAKE_HANDLE 5 9)).2 (by decide) (by decide)⟩

/-! ## C1 -/

/-- C1 counterexample: on an existing local entry that is already fully
attached (refCount 2), an attach attempt with mismatched sizes fails with
unavailable, not queuepair-mismatch — the refcount check fires first. -/
theorem local_attach_mismatch_counterexample :
    (∃ e, QueuePairList_FindEntry cLocalS2.head (VMCI_MAKE_HANDLE 7 2000)
        = some e ∧
      e.flags &&& VMCI_QPFLAG_LOCAL ≠ 0 ∧ e.refCount = 2 ∧
      e.produceSize ≠ 999) ∧
    (VMCIQueuePairAllocHelper cLocalS2 cAllocEnvOK (VMCI_MAKE_HANDLE 7 2000)
        999 999 VMCI_INVALID_ID VMCI_QPFLAG_LOCAL).result
      = VMCI_ERROR_UNAVAILABLE ∧
    VMCI_ERROR_UNAVAILABLE ≠ VMCI_ERROR_QUEUEPAIR_MISMATCH := by decide

/-- C1 (amended): for every local attach attempt on an existing local entry
with mismatched sizes (attacher produceSize vs creator consumeSize or vice
versa) or mismatched flags once the attach-only bit is masked out, the call
fails — with queuepair-mismatch when the entry is not already fully
attached (refCount at most 1), and with unavailable when refCount exceeds 1
(that check fires first) — and the state, hence the refCount of the entry,
is unchanged in both cases. -/
theorem local_attach_mismatch (s : QueuePairListState) (env : AllocEnv)
    (handleIn : VMCIHandle) (produceSize consumeSize peer flags : Nat)
    (e : QueuePairEntry)
    (hsd : env.deviceShutdown = false)
    (hgate : ¬(s.hibernate = true ∧ flags &&& VMCI_QPFLAG_LOCAL = 0))
    (hfe : QueuePairList_FindEntry s.head handleIn = some e)
    (hloc : e.flags &&& VMCI_QPFLAG_LOCAL ≠ 0)
    (hmis : e.produceSize ≠ consumeSize ∨ e.consumeSize ≠ produceSize ∨
            e.flags ≠ flags &&& (UINT32_MASK ^^^ VMCI_QPFLAG_ATTACH_ONLY)) :
    (VMCIQueuePairAllocHelper s env handleIn produceSize consumeSize
        peer flags).result
      = (if e.refCount > 1 then VMCI_ERROR_UNAVAILABLE
         else VMCI_ERROR_QUEUEPAIR_MISMATCH) ∧
    (VMCIQueuePairAllocHelper s env handleIn produceSize consumeSize
        peer flags).state = s := by
  simp only [VMCIQueuePairAllocHelper, hsd, Bool.false_eq_true, if_false,
    if_neg hgate, hfe]
  rw [if_pos hloc]
  by_cases href : e.refCount > 1
  · rw [if_pos href, if_pos href]
    exact ⟨rfl, rfl⟩
  · rw [if_neg href, if_pos hmis, if_neg href]
    exact ⟨rfl, rfl⟩

/-- Witness for C1 at a not-fully-attached local entry (refCount 1) and an
unswapped, hence mismatched, size request. -/
theorem local_attach_mismatch_witness :
    (VMCIQueuePairAllocHelper cLocalS1 cAllocEnvOK (VMCI_MAKE_HANDLE 7 2000)
        100 200 VMCI_INVALID_ID VMCI_QPFLAG_LOCAL).result
      = (if cLocalEntry1.refCount > 1 then VMCI_ERROR_UNAVAILABLE
         else VMCI_ERROR_QUEUEPAIR_MISMATCH) ∧
    (VMCIQueuePairAllocHelper cLocalS1 cAllocEnvOK (VMCI_MAKE_HANDLE 7 2000)
        100 200 VMCI_INVALID_ID VMCI_QPFLAG_LOCAL).state = cLocalS1 :=
  local_attach_mismatch cLocalS1 cAllocEnvOK (VMCI_MAKE_HANDLE 7 2000)
    100 200 VMCI_INVALID_ID VMCI_QPFLAG_LOCAL cLocalEntry1
    (by decide) (by decide) (by decide) (by decide) (by decide)

/-! ## C2 -/

/-- C2: every successful local attach (second endpoint joining an existing
local entry, sizes matching role-swapped, flags matching with the
attach-only bit masked out, peer notification accepted) hands the attacher
the creator buffers swapped — its produce buffer is the creator consume
buffer and its consume buffer is the creator produce buffer — and performs
no allocation: the registry keeps the same length with only the found
entry's refCount incremented, and the hibernate flag, failed-handle set and
RID counter are untouched. -/
theorem local_attach_swap (s : QueuePairListState) (env : AllocEnv)
    (handleIn : VMCIHandle) (produceSize consumeSize peer flags : Nat)
    (e : QueuePairEntry)
    (hsd : env.deviceShutdown = false)
    (hgate : ¬(s.hibernate = true ∧ flags &&& VMCI_QPFLAG_LOCAL = 0))
    (hfe : QueuePairList_FindEntry s.head handleIn = some e)
    (hloc : e.flags &&& VMCI_QPFLAG_LOCAL ≠ 0)
    (href : ¬ e.refCount > 1)
    (hp : e.produceSize = consumeSize)
    (hc : e.consumeSize = produceSize)
    (hf : e.flags = flags &&& (UINT32_MASK ^^^ VMCI_QPFLAG_ATTACH_ONLY))
    (hnot : ¬ env.notifyResult < VMCI_SUCCESS) :
    (VMCIQueuePairAllocHelper s env handleIn produceSize consumeSize
        peer flags).result = VMCI_SUCCESS ∧
    (VMCIQueuePairAllocHelper s env handleIn produceSize consumeSize
        peer flags).handleOut = e.handle ∧
    (VMCIQueuePairAllocHelper s env handleIn produceSize consumeSize
        peer flags).produceQOut = some e.consumeQ ∧
    (VMCIQueuePairAllocHelper s env handleIn produceSize consumeSize
        peer flags).consumeQOut = some e.produceQ ∧
    (VMCIQueuePairAllocHelper s env handleIn produceSize consumeSize
        peer flags).state.head
      = QueuePairList_UpdateEntry s.head handleIn
          (fun x => { x with refCount := x.refCount + 1 }) ∧
    (VMCIQueuePairAllocHelper s env handleIn produceSize consumeSize
        peer flags).state.head.length = s.head.length ∧
    (VMCIQueuePairAllocHelper s env handleIn produceSize consumeSize
        peer flags).state.hibernate = s.hibernate ∧
    (VMCIQueuePairAllocHelper s env handleIn produceSize consumeSize
        peer flags).state.hibernateFailedList = s.hibernateFailedList ∧
    (VMCIQueuePairAllocHelper s env handleIn produceSize consumeSize
        peer flags).state.queuePairRID = s.queuePairRID := by
  have hnm : ¬(e.produceSize ≠ consumeSize ∨ e.consumeSize ≠ produceSize ∨
      e.flags ≠ flags &&& (UINT32_MASK ^^^ VMCI_QPFLAG_ATTACH_ONLY)) := by
    push_neg
    exact ⟨hp, hc, hf⟩
  simp only [VMCIQueuePairAllocHelper, hsd, Bool.false_eq_true, if_false,
    if_neg hgate, hfe]
  rw [if_pos hloc, if_neg href, if_neg hnm, if_neg hnot]
  exact ⟨rfl, rfl, rfl, rfl, rfl,
    QueuePairList_UpdateEntry_length s.head handleIn
      (fun x => { x with refCount := x.refCount + 1 }),
    rfl, rfl, rfl⟩

/-- Witness for C2: the role-swapped attach on the concrete local queue
pair with produceSize 100 and consumeSize 200. -/
theorem local_attach_swap_witness :
    (VMCIQueuePairAllocHelper cLocalS1 cAllocEnvOK (VMCI_MAKE_HANDLE 7 2000)
        200 100 VMCI_INVALID_ID VMCI_QPFLAG_LOCAL).result = VMCI_SUCCESS ∧
    (VMCIQueuePairAllocHelper cLocalS1 cAllocEnvOK (VMCI_MAKE_HANDLE 7 2000)
        200 100 VMCI_INVALID_ID VMCI_QPFLAG_LOCAL).handleOut
      = cLocalEntry1.handle ∧
    (VMCIQueuePairAllocHelper cLocalS1 cAllocEnvOK (VMCI_MAKE_HANDLE 7 2000)
        200 100 VMCI_INVALID_ID VMCI_QPFLAG_LOCAL).produceQOut
      = some cLocalEntry1.consumeQ ∧
    (VMCIQueuePairAllocHelper cLocalS1 cAllocEnvOK (VMCI_MAKE_HANDLE 7 2000)
        200 100 VMCI_INVALID_ID VMCI_QPFLAG_LOCAL).consumeQOut
      = some cLocalEntry1.produceQ ∧
    (VMCIQueuePairAllocHelper cLocalS1 cAllocEnvOK (VMCI_MAKE_HANDLE 7 2000)
        200 100 VMCI_INVALID_ID VMCI_QPFLAG_LOCAL).state.head
      = QueuePairList_UpdateEntry cLocalS1.head (VMCI_MAKE_HANDLE 7 2000)
          (fun x => { x with refCount := x.refCount + 1 }) ∧
    (VMCIQueuePairAllocHelper cLocalS1 cAllocEnvOK (VMCI_MAKE_HANDLE 7 2000)
        200 100 VMCI_INVALID_ID VMCI_QPFLAG_LOCAL).state.head.length
      = cLocalS1.head.length ∧
    (VMCIQueuePairAllocHelper cLocalS1 cAllocEnvOK (VMCI_MAKE_HANDLE 7 2000)
        200 100 VMCI_INVALID_ID VMCI_QPFLAG_LOCAL).state.hibernate
      = cLocalS1.hibernate ∧
    (VMCIQueuePairAllocHelper cLocalS1 cAllocEnvOK (VMCI_MAKE_HANDLE 7 2000)
        200 100 VMCI_INVALID_ID VMCI_QPFLAG_LOCAL).state.hibernateFailedList
      = cLocalS1.hibernateFailedList ∧
    (VMCIQueuePairAllocHelper cLocalS1 cAllocEnvOK (VMCI_MAKE_HANDLE 7 2000)
        200 100 VMCI_INVALID_ID VMCI_QPFLAG_LOCAL).state.queuePairRID
      = cLocalS1.queuePairRID :=
  local_attach_swap cLocalS1 cAllocEnvOK (VMCI_MAKE_HANDLE 7 2000)
    200 100 VMCI_INVALID_ID VMCI_QPFLAG_LOCAL cLocalEntry1
    (by decide) (by decide) (by decide) (by decide) (by decide) (by decide)
    (by decide) (by decide) (by decide)

/-! ## C3 -/

lemma VMCIQueuePairDetachOut_spec_entry (s : QueuePairListState)
    (handle : VMCIHandle) (e : QueuePairEntry) (b : Bool)
    (failedList1 : List VMCIHandle) (result : Int) (events : List QPEvent)
    (href : 1 ≤ e.refCount)
    (hfl : result < VMCI_SUCCESS → failedList1 = s.hibernateFailedList) :
    (VMCI_SUCCESS ≤ result →
      (e.refCount = 1 →
        (VMCIQueuePairDetachOut s handle { e with hibernateFailure := b }
            failedList1 result events).state.head
          = QueuePairList_RemoveEntry s.head handle ∧
        ∃ e2, (VMCIQueuePairDetachOut s handle { e with hibernateFailure := b }
            failedList1 result events).destroyed = some e2 ∧
          e2.refCount = 0 ∧ e2.handle = e.handle ∧ e2.ppnSet = e.ppnSet ∧
          e2.produceQ = e.produceQ ∧ e2.consumeQ = e.consumeQ) ∧
      (e.refCount ≠ 1 →
        (VMCIQueuePairDetachOut s handle { e with hibernateFailure := b }
            failedList1 result events).destroyed = none ∧
        ∃ b2, (VMCIQueuePairDetachOut s handle { e with hibernateFailure := b }
            failedList1 result events).state.head
          = QueuePairList_UpdateEntry s.head handle
              (fun _ => { e with refCount := e.refCount - 1,
                                 hibernateFailure := b2 }))) ∧
    (result < VMCI_SUCCESS →
      (VMCIQueuePairDetachOut s handle { e with hibernateFailure := b }
          failedList1 result events).state = s ∧
      (VMCIQueuePairDetachOut s handle { e with hibernateFailure := b }
          failedList1 result events).destroyed = none) := by
  rcases VMCIQueuePairDetachOut_head_cases s handle
      { e with hibernateFailure := b } failedList1 result events with
    ⟨hres, hst, hdes⟩ | ⟨hres, hrc, hst, hdes⟩ | ⟨hres, hrc, hst, hdes⟩
  · refine ⟨fun h0 => absurd hres (not_lt.mpr h0), fun _ => ⟨?_, hdes⟩⟩
    rw [hst, hfl hres]
  · have hrc2 : e.refCount - 1 = 0 := hrc
    constructor
    · intro h0
      constructor
      · intro h1
        refine ⟨by rw [hst], ?_⟩
        refine ⟨{ e with refCount := e.refCount - 1, hibernateFailure := b },
          hdes, hrc2, rfl, rfl, rfl, rfl⟩
      · intro hne
        exact absurd hrc2 (by omega)
    · intro hlt
      exact absurd hlt (not_lt.mpr hres)
  · have hrc2 : e.refCount - 1 ≠ 0 := hrc
    constructor
    · intro h0
      constructor
      · intro h1
        exact absurd (by omega : e.refCount - 1 = 0) hrc2
      · intro hne
        exact ⟨hdes, ⟨b, by rw [hst]⟩⟩
    · intro hlt
      exact absurd hlt (not_lt.mpr hres)

/-- C3: for every detach on a live entry (its C precondition
`refCount >= 1` as hypothesis): on success the refCount is decremented by
exactly one, the entry is removed from the registry iff the decremented
refCount is 0, and in that case exactly that entry — with its PPN set and
both queue buffers — is handed to `QueuePairEntryDestroy` once (after the
registry lock is dropped); on failure the state, hence the entry and its
refCount, is unchanged and nothing is destroyed. -/
theorem detach_refcount_discipline (s : QueuePairListState) (env : DetachEnv)
    (handle : VMCIHandle) (e : QueuePairEntry)
    (hfe : QueuePairList_FindEntry s.head handle = some e)
    (href : 1 ≤ e.refCount) :
    (VMCI_SUCCESS ≤ (VMCIQueuePairDetachHelper s env handle).result →
      (e.refCount = 1 →
        (VMCIQueuePairDetachHelper s env handle).state.head
          = QueuePairList_RemoveEntry s.head handle ∧
        ∃ e2, (VMCIQueuePairDetachHelper s env handle).destroyed = some e2 ∧
          e2.refCount = 0 ∧ e2.handle = e.handle ∧ e2.ppnSet = e.ppnSet ∧
          e2.produceQ = e.produceQ ∧ e2.consumeQ = e.consumeQ) ∧
      (e.refCount ≠ 1 →
        (VMCIQueuePairDetachHelper s env handle).destroyed = none ∧
        ∃ b, (VMCIQueuePairDetachHelper s env handle).state.head
          = QueuePairList_UpdateEntry s.head handle
              (fun _ => { e with refCount := e.refCount - 1,
                                 hibernateFailure := b }))) ∧
    ((VMCIQueuePairDetachHelper s env handle).result < VMCI_SUCCESS →
      (VMCIQueuePairDetachHelper s env handle).state = s ∧
      (VMCIQueuePairDetachHelper s env handle).destroyed = none) := by
  simp only [VMCIQueuePairDetachHelper, VMCIQPUnmarkHibernateFailed, hfe]
  split_ifs <;>
    (rw [VMCIQueuePairDetachOut_result]
     first
       | exact VMCIQueuePairDetachOut_spec_entry s handle e e.hibernateFailure
           _ _ _ href (fun _ => rfl)
       | exact VMCIQueuePairDetachOut_spec_entry s handle e false
           _ _ _ href (fun hlt => absurd hlt (by first | decide | simp_all)))

/-- A non-local entry with refCount 1 in an otherwise empty registry, used
by the detach and conversion witnesses. -/
def cRemoteEntry : QueuePairEntry :=
  ⟨VMCI_MAKE_HANDLE 7 2001, VMCI_INVALID_ID, 0, 4096, 4096, 4, 0, 81, 82,
   1, false⟩

def cDetachS : QueuePairListState := ⟨[cRemoteEntry], false, [], 1024⟩

/-- Witness for C3: a last detach (refCount 1 to 0) on a concrete registry
removes and destroys exactly the found entry. -/
theorem detach_refcount_discipline_witness :
    (VMCIQueuePairDetachHelper cDetachS ⟨0, 0⟩
        (VMCI_MAKE_HANDLE 7 2001)).state.head
      = QueuePairList_RemoveEntry cDetachS.head (VMCI_MAKE_HANDLE 7 2001) ∧
    ∃ e2, (VMCIQueuePairDetachHelper cDetachS ⟨0, 0⟩
        (VMCI_MAKE_HANDLE 7 2001)).destroyed = some e2 ∧
      e2.refCount = 0 ∧ e2.handle = cRemoteEntry.handle ∧
      e2.ppnSet = cRemoteEntry.ppnSet ∧
      e2.produceQ = cRemoteEntry.produceQ ∧
      e2.consumeQ = cRemoteEntry.consumeQ :=
  ((detach_refcount_discipline cDetachS ⟨0, 0⟩ (VMCI_MAKE_HANDLE 7 2001)
      cRemoteEntry (by decide) (by decide)).1 (by decide)).1 (by decide)

/-! ## C4 -/

/-- C4: for every non-local entry swept by `VMCIQueuePair_Convert` with
`toLocal` true, if any step fails (consume-queue snapshot, produce-queue
snapshot, or the detach hypercall), the entry at that position afterwards
is exactly the old entry with only `hibernateFailure` set — buffers
restored, LOCAL flag still clear — its handle is recorded in the
failed-handle set, and the sweep has still processed the whole list (the
registry keeps its length). -/
theorem hibernate_failure_rollback (s : QueuePairListState)
    (deviceReset : Bool) (env : Nat → ConvertEntryEnv) (i : Nat)
    (e : QueuePairEntry)
    (hget : s.head.get? i = some e)
    (hnl : e.flags &&& VMCI_QPFLAG_LOCAL = 0)
    (hfail : (env i).consLocalQ = none ∨ (env i).prodLocalQ = none ∨
             (env i).detachResult < VMCI_SUCCESS) :
    (VMCIQueuePair_Convert s true deviceReset env).state.head.get? i
      = some { e with hibernateFailure := true } ∧
    e.handle ∈
      (VMCIQueuePair_Convert s true deviceReset env).state.hibernateFailedList ∧
    (VMCIQueuePair_Convert s true deviceReset env).state.head.length
      = s.head.length := by
  rw [VMCIQueuePair_Convert_toLocal_state]
  refine ⟨?_, ?_, ?_⟩
  · have hg := VMCIQueuePairConvertSweep_get? env 0 i s.head
    rw [hget] at hg
    simp only [Nat.zero_add, Option.map_some'] at hg
    rw [VMCIQueuePairConvertEntry_fail hnl hfail] at hg
    simpa using hg
  · refine List.mem_append.mpr (Or.inr ?_)
    have hmem : e.handle ∈ (VMCIQueuePairConvertEntry (env (0 + i)) e).2.1 := by
      rw [Nat.zero_add, VMCIQueuePairConvertEntry_fail hnl hfail]
      simp
    exact VMCIQueuePairConvertSweep_failed_mem env 0 i s.head hget hmem
  · exact VMCIQueuePairConvertSweep_length env 0 s.head

/-- Environment in which every conversion attempt fails at the
consume-queue snapshot. -/
def cConvFailEnv : Nat → ConvertEntryEnv := fun _ => ⟨none, none, VMCI_SUCCESS⟩

/-- Witness for C4: the concrete non-local entry at position 0 fails its
consume-queue snapshot and is marked, recorded, and otherwise unchanged. -/
theorem hibernate_failure_rollback_witness :
    (VMCIQueuePair_Convert cDetachS true false cConvFailEnv).state.head.get? 0
      = some { cRemoteEntry with hibernateFailure := true } ∧
    cRemoteEntry.handle ∈
      (VMCIQueuePair_Convert cDetachS true false
        cConvFailEnv).state.hibernateFailedList ∧
    (VMCIQueuePair_Convert cDetachS true false cConvFailEnv).state.head.length
      = cDetachS.head.length :=
  hibernate_failure_rollback cDetachS false cConvFailEnv 0 cRemoteEntry
    (by decide) (by decide) (by decide)

/-! ## C5 -/

/-- Allocation environment for a plain (non-local) create with queue buffer
tags 81 and 82 and a successful allocate hypercall. -/
def cRemoteCreateEnv : AllocEnv := ⟨false, 7, 0, some 81, some 82, true, false, 0, true, 0, 0⟩

/-- A non-local queue pair created at handle (7, 2001). -/
def cHibS1 : QueuePairListState :=
  (VMCIQueuePair_AllocPriv VMCIQueuePair_InitState cRemoteCreateEnv true
    (VMCI_MAKE_HANDLE 7 2001) true 4096 true 4096 VMCI_INVALID_ID 0
    VMCI_NO_PRIVILEGE_FLAGS).state

/-- `cHibS1` after a hibernation sweep whose conversion failed: the entry
is marked and recorded, the hibernate flag is set. -/
def cHibS2 : QueuePairListState :=
  (VMCIQueuePair_Convert cHibS1 true false cConvFailEnv).state

/-- `cHibS2` after leaving hibernation with a device reset. -/
def cHibS3 : QueuePairListState :=
  (VMCIQueuePair_Convert cHibS2 false true cConvFailEnv).state

/-- C5 counterexample: a reachable execution — create a remote queue pair,
enter hibernation with a failing conversion, leave hibernation — ends in a
state whose hibernate flag is cleared while the entry still carries
`hibernateFailure = true`: the wake step does not clear the per-entry
field, contradicting the claim. -/
theorem hibernate_failure_flag_counterexample :
    QPReachable cHibS3 ∧ cHibS3.hibernate = false ∧
    ∃ e ∈ cHibS3.head, e.hibernateFailure = true := by
  refine ⟨?_, by decide, by decide⟩
  exact QPReachable.step (QPReachable.step (QPReachable.step QPReachable.init
      (QPStep.alloc VMCIQueuePair_InitState cRemoteCreateEnv true
        (VMCI_MAKE_HANDLE 7 2001) true 4096 true 4096 VMCI_INVALID_ID 0
        VMCI_NO_PRIVILEGE_FLAGS))
      (QPStep.convert cHibS1 true false cConvFailEnv))
    (QPStep.convert cHibS2 false true cConvFailEnv)

lemma VMCIQueuePairDetachOut_failedList (s : QueuePairListState)
    (handle : VMCIHandle) (entry1 : QueuePairEntry)
    (failedList1 : List VMCIHandle) (result : Int) (events : List QPEvent) :
    (VMCIQueuePairDetachOut s handle entry1 failedList1
        result events).state.hibernateFailedList = failedList1 := by
  simp only [VMCIQueuePairDetachOut]
  split_ifs <;> rfl

/-- C5 (amended): `hibernateFailure` is set only by the hibernation sweep
and cleared only by a successful detach of the entry: the wake restoration
step (`toLocal` false) leaves every entry — including its
`hibernateFailure` field — unchanged while draining the failed-handle set
and clearing the hibernating flag, so the field can remain true after the
flag is cleared; a detach of a marked non-local entry whose hypercall
reports not-found removes the handle from the failed-handle set. -/
theorem hibernate_failure_persistence (s : QueuePairListState)
    (deviceReset : Bool) (env : Nat → ConvertEntryEnv) :
    (VMCIQueuePair_Convert s false deviceReset env).state.head = s.head ∧
    (VMCIQueuePair_Convert s false deviceReset
        env).state.hibernateFailedList = [] ∧
    (VMCIQueuePair_Convert s false deviceReset env).state.hibernate = false ∧
    (∀ envd : DetachEnv, ∀ handle e,
      QueuePairList_FindEntry s.head handle = some e →
      e.flags &&& VMCI_QPFLAG_LOCAL = 0 → e.hibernateFailure = true →
      envd.hyperCallResult = VMCI_ERROR_NOT_FOUND →
      (VMCIQueuePairDetachHelper s envd handle).state.hibernateFailedList
        = VMCIHandleArray_RemoveEntry s.hibernateFailedList handle) := by
  refine ⟨rfl, rfl, rfl, ?_⟩
  intro envd handle e hfe hnl hhf hnf
  have hhandle : e.handle = handle := (QueuePairList_FindEntry_decomp hfe).2.1
  simp only [VMCIQueuePairDetachHelper, VMCIQPUnmarkHibernateFailed, hfe]
  rw [if_neg (show ¬ e.flags &&& VMCI_QPFLAG_LOCAL ≠ 0 from by simp [hnl]),
      if_pos hhf, hnf, if_pos rfl, if_pos rfl,
      VMCIQueuePairDetachOut_failedList, hhandle]

/-- The entry of `cHibS2`: the created non-local entry, marked. -/
def cRemoteEntryMarked : QueuePairEntry :=
  { cRemoteEntry with hibernateFailure := true }

/-- Witness for C5 at the concrete marked entry. -/
theorem hibernate_failure_persistence_witness :
    (VMCIQueuePair_Convert cHibS2 false true cConvFailEnv).state.head
      = cHibS2.head ∧
    (VMCIQueuePairDetachHelper cHibS2 ⟨0, VMCI_ERROR_NOT_FOUND⟩
        (VMCI_MAKE_HANDLE 7 2001)).state.hibernateFailedList
      = VMCIHandleArray_RemoveEntry cHibS2.hibernateFailedList
          (VMCI_MAKE_HANDLE 7 2001) :=
  ⟨(hibernate_failure_persistence cHibS2 true cConvFailEnv).1,
   (hibernate_failure_persistence cHibS2 true cConvFailEnv).2.2.2
     ⟨0, VMCI_ERROR_NOT_FOUND⟩ (VMCI_MAKE_HANDLE 7 2001) cRemoteEntryMarked
     (by decide) (by decide) (by decide) (by decide)⟩

/-! ## C6 -/

/-- C6: leaving hibernation drains the failed-handle set (empty afterwards)
and clears the hibernating flag; with a device reset, each handle in the
set (taken as a set, i.e. without duplicates) receives exactly one local
peer-detach notification during the pass, and without a device reset no
notification is delivered.  The failed-handle container primitives are
modelled from the spec. -/
theorem wake_drain_notifications (s : QueuePairListState) (deviceReset : Bool)
    (env : Nat → ConvertEntryEnv) (handle : VMCIHandle) :
    (VMCIQueuePair_Convert s false deviceReset
        env).state.hibernateFailedList = [] ∧
    (VMCIQueuePair_Convert s false deviceReset env).state.hibernate = false ∧
    (deviceReset = true → s.hibernateFailedList.Nodup →
      handle ∈ s.hibernateFailedList →
      (VMCIQueuePair_Convert s false deviceReset env).events.count
        (QPEvent.peerDetach handle) = 1) ∧
    (deviceReset = false →
      (VMCIQueuePair_Convert s false deviceReset env).events = []) := by
  refine ⟨rfl, rfl, ?_, ?_⟩
  · intro hd hnd hmem
    subst hd
    show (s.hibernateFailedList.reverse.map
        (QueuePairNotifyPeerLocal false)).count (QPEvent.peerDetach handle) = 1
    have hinj : Function.Injective (QueuePairNotifyPeerLocal false) := by
      intro a b hab
      simpa [QueuePairNotifyPeerLocal] using hab
    have h1 : QPEvent.peerDetach handle
        = QueuePairNotifyPeerLocal false handle := rfl
    rw [h1, List.count_map_of_injective _ _ hinj,
      (List.reverse_perm _).count_eq]
    exact List.count_eq_one_of_mem hnd hmem
  · intro hd
    subst hd
    rfl

/-- Witness for C6 on the concrete post-sweep state whose failed-handle set
holds exactly the handle (7, 2001). -/
theorem wake_drain_notifications_witness :
    (VMCIQueuePair_Convert cHibS2 false true
        cConvFailEnv).state.hibernateFailedList = [] ∧
    (VMCIQueuePair_Convert cHibS2 false true cConvFailEnv).events.count
      (QPEvent.peerDetach (VMCI_MAKE_HANDLE 7 2001)) = 1 :=
  ⟨(wake_drain_notifications cHibS2 true cConvFailEnv
      (VMCI_MAKE_HANDLE 7 2001)).1,
   (wake_drain_notifications cHibS2 true cConvFailEnv
      (VMCI_MAKE_HANDLE 7 2001)).2.2.1 rfl (by decide) (by decide)⟩

/-! ## C7 -/

/-- C7: the RID counter starts just above the reserved range; for every
allocation with the invalid/sentinel handle on a reachable state (whose
counter therefore sits in the non-reserved uint32 range), a successful
call returns a handle whose resource id is outside the reserved range and
different from the handle of every live entry; and whenever the counter
cycles completely back to its starting value without finding a free rid,
the allocation fails and registers nothing. -/
theorem auto_rid_assignment (s : QueuePairListState) (env : AllocEnv)
    (produceSize consumeSize peer flags : Nat)
    (hreach : QPReachable s) (hcid : env.contextID ≠ VMCI_INVALID_ID) :
    VMCIQueuePair_InitState.queuePairRID = VMCI_RESERVED_RESOURCE_ID_MAX + 1 ∧
    ((VMCIQueuePairAllocHelper s env VMCI_INVALID_HANDLE produceSize
        consumeSize peer flags).result = VMCI_SUCCESS →
      VMCI_RESERVED_RESOURCE_ID_MAX <
        (VMCIQueuePairAllocHelper s env VMCI_INVALID_HANDLE produceSize
          consumeSize peer flags).handleOut.resource ∧
      (∀ x ∈ s.head, x.handle ≠
        (VMCIQueuePairAllocHelper s env VMCI_INVALID_HANDLE produceSize
          consumeSize peer flags).handleOut)) ∧
    ((QueuePairRIDLoop s.head env.contextID s.queuePairRID (2 ^ 32)
        s.queuePairRID).found.isSome = true →
      (VMCIQueuePairAllocHelper s env VMCI_INVALID_HANDLE produceSize
        consumeSize peer flags).result ≠ VMCI_SUCCESS ∧
      (VMCIQueuePairAllocHelper s env VMCI_INVALID_HANDLE produceSize
        consumeSize peer flags).state.head = s.head) := by
  obtain ⟨-, hr1, hr2⟩ := qpReachable_inv hreach
  have hfe : QueuePairList_FindEntry s.head VMCI_INVALID_HANDLE = none := by
    simp [QueuePairList_FindEntry]
  refine ⟨rfl, ?_, ?_⟩
  · intro hres
    rcases hpa : env.produceQAlloc with - | pq
    · simp only [VMCIQueuePairAllocHelper, VMCI_SUCCESS, hfe, hpa,
        apply_ite AllocResult.result] at hres
      split_ifs at hres <;> exact absurd hres (by decide)
    · rcases hca : env.consumeQAlloc with - | cq
      · simp only [VMCIQueuePairAllocHelper, VMCI_SUCCESS, hfe, hpa, hca,
          apply_ite AllocResult.result] at hres
        split_ifs at hres <;> exact absurd hres (by decide)
      · rcases hcr : (QueuePairEntryCreate s.head s.queuePairRID env.contextID
            env.entryMemOk env.entryHibernateInit VMCI_INVALID_HANDLE
            peer flags produceSize consumeSize pq cq).2 with - | entry
        · simp only [VMCIQueuePairAllocHelper, VMCI_SUCCESS, hfe, hpa, hca,
            hcr, apply_ite AllocResult.result] at hres
          split_ifs at hres <;> exact absurd hres (by decide)
        · obtain ⟨hcx, hres1, hres2, hfind⟩ :=
            QueuePairEntryCreate_auto_spec hr1 hr2 hcr
          have hninv : ¬ VMCI_HANDLE_INVALID entry.handle := by
            intro hx
            apply hcid
            rw [← hcx, hx]
            rfl
          have hneq := QueuePairList_FindEntry_none hfind hninv
          simp only [VMCIQueuePairAllocHelper, VMCI_SUCCESS, hfe, hpa, hca,
            hcr, apply_ite AllocResult.result,
            apply_ite AllocResult.handleOut] at hres ⊢
          split_ifs at hres ⊢ <;>
            first
              | exact absurd hres (by decide)
              | exact ⟨hres1, hneq⟩
              | omega
  · intro hocc
    rcases hpa : env.produceQAlloc with - | pq
    · simp only [VMCIQueuePairAllocHelper, VMCI_SUCCESS, hfe, hpa,
        apply_ite AllocResult.result, apply_ite AllocResult.state,
        apply_ite QueuePairListState.head]
      split_ifs <;> exact ⟨by decide, rfl⟩
    · rcases hca : env.consumeQAlloc with - | cq
      · simp only [VMCIQueuePairAllocHelper, VMCI_SUCCESS, hfe, hpa, hca,
          apply_ite AllocResult.result, apply_ite AllocResult.state,
          apply_ite QueuePairListState.head]
        split_ifs <;> exact ⟨by decide, rfl⟩
      · have hcr := @QueuePairEntryCreate_exhausted s.head s.queuePairRID
          env.contextID env.entryMemOk env.entryHibernateInit peer flags
          produceSize consumeSize pq cq hocc
        simp only [VMCIQueuePairAllocHelper, VMCI_SUCCESS, hfe, hpa, hca,
          hcr, apply_ite AllocResult.result, apply_ite AllocResult.state,
          apply_ite QueuePairListState.head]
        split_ifs <;> exact ⟨by decide, rfl⟩

/-- Witness for C7: on the fresh state, an auto-assigned local create
receives resource id 1024, just outside the reserved range. -/
theorem auto_rid_assignment_witness :
    VMCIQueuePair_InitState.queuePairRID = VMCI_RESERVED_RESOURCE_ID_MAX + 1 ∧
    VMCI_RESERVED_RESOURCE_ID_MAX <
      (VMCIQueuePairAllocHelper VMCIQueuePair_InitState cAllocEnvOK
        VMCI_INVALID_HANDLE 100 200 VMCI_INVALID_ID
        VMCI_QPFLAG_LOCAL).handleOut.resource :=
  ⟨(auto_rid_assignment VMCIQueuePair_InitState cAllocEnvOK 100 200
      VMCI_INVALID_ID VMCI_QPFLAG_LOCAL QPReachable.init (by decide)).1,
   ((auto_rid_assignment VMCIQueuePair_InitState cAllocEnvOK 100 200
      VMCI_INVALID_ID VMCI_QPFLAG_LOCAL QPReachable.init (by decide)).2.1
     (by decide)).1⟩

/-! ## C8 -/

/-- C8: in every reachable state, every registered entry has a refCount of
1 or 2 (so 0 occurs only transiently, outside the registry); and a local
attach on an entry whose refCount already exceeds 1 is rejected with
unavailable, leaving the state unchanged. -/
theorem refcount_bound (s : QueuePairListState) (hreach : QPReachable s) :
    (∀ e ∈ s.head, 1 ≤ e.refCount ∧ e.refCount ≤ 2) ∧
    (∀ (env : AllocEnv) (handleIn : VMCIHandle)
        (produceSize consumeSize peer flags : Nat) (e : QueuePairEntry),
      env.deviceShutdown = false →
      ¬(s.hibernate = true ∧ flags &&& VMCI_QPFLAG_LOCAL = 0) →
      QueuePairList_FindEntry s.head handleIn = some e →
      e.flags &&& VMCI_QPFLAG_LOCAL ≠ 0 →
      e.refCount > 1 →
      (VMCIQueuePairAllocHelper s env handleIn produceSize consumeSize
          peer flags).result = VMCI_ERROR_UNAVAILABLE ∧
      (VMCIQueuePairAllocHelper s env handleIn produceSize consumeSize
          peer flags).state = s) := by
  refine ⟨(qpReachable_inv hreach).1, ?_⟩
  intro env handleIn produceSize consumeSize peer flags e hsd hgate hfe hloc
    href
  simp only [VMCIQueuePairAllocHelper, hsd, Bool.false_eq_true, if_false,
    if_neg hgate, hfe]
  rw [if_pos hloc, if_pos href]
  exact ⟨rfl, rfl⟩

/-- The fully attached entry of `cLocalS2`. -/
def cLocalEntry2 : QueuePairEntry := { cLocalEntry1 with refCount := 2 }

/-- Witness for C8: the state after a local create and a local attach is
reachable, its entry refcounts are bounded, and a third attach is refused
with unavailable. -/
theorem refcount_bound_witness :
    (∀ e ∈ cLocalS2.head, 1 ≤ e.refCount ∧ e.refCount ≤ 2) ∧
    (VMCIQueuePairAllocHelper cLocalS2 cAllocEnvOK (VMCI_MAKE_HANDLE 7 2000)
        999 999 VMCI_INVALID_ID VMCI_QPFLAG_LOCAL).result
      = VMCI_ERROR_UNAVAILABLE := by
  have hreach : QPReachable cLocalS2 :=
    QPReachable.step (QPReachable.step QPReachable.init
      (QPStep.alloc VMCIQueuePair_InitState cAllocEnvOK true
        (VMCI_MAKE_HANDLE 7 2000) true 100 true 200 VMCI_INVALID_ID
        VMCI_QPFLAG_LOCAL VMCI_NO_PRIVILEGE_FLAGS))
      (QPStep.alloc cLocalS1 cAllocEnvOK true (VMCI_MAKE_HANDLE 7 2000) true
        200 true 100 VMCI_INVALID_ID VMCI_QPFLAG_LOCAL
        VMCI_NO_PRIVILEGE_FLAGS)
  exact ⟨(refcount_bound cLocalS2 hreach).1,
    ((refcount_bound cLocalS2 hreach).2 cAllocEnvOK (VMCI_MAKE_HANDLE 7 2000)
      999 999 VMCI_INVALID_ID VMCI_QPFLAG_LOCAL cLocalEntry2
      (by decide) (by decide) (by decide) (by decide) (by decide)).1⟩
